import Mathlib

/-!
# mealcost-tracker: persistence layer and list routes

A shallow embedding of `lib/pg-persistence.js` (the `PgPersistence` data-access
object) and of the route handlers of `meals.js` that the verified properties are
about.

* JavaScript values that reach the code as request parameters are strings; the
  code coerces them with `+x`, `x - 1`, `x * 5`, `x <= 0`, ... The coercion
  (`StringToNumber`) and the arithmetic are embedded on `JSNum`. A finite
  double is a dyadic rational, hence a finite decimal, and is written
  `mant / 10 ^ scale`; `StringToNumber`, `+`, `-` and `*` round their exact
  result to the nearest double, ties to even (`JSNum.toDouble`).
* The PostgreSQL store is a pair of row lists; every SQL statement of the
  source is embedded as the list operation its text denotes.
-/

namespace MealCost

/-! ## JavaScript numbers -/

/-- A JavaScript number: `NaN`, an infinity, or the finite value
`mant / 10 ^ scale`. -/
inductive JSNum where
  | nan : JSNum
  | posInf : JSNum
  | negInf : JSNum
  | fin (mant : Int) (scale : Nat) : JSNum
  deriving Repr, DecidableEq

namespace JSNum

/-- The integer `n` as a JavaScript number. -/
def ofInt (n : Int) : JSNum := fin n 0

/-- The exact value of a finite number. -/
def value (mant : Int) (scale : Nat) : ℚ := (mant : ℚ) / (10 : ℚ) ^ scale

/-- Sign of a number: `-1`, `0` or `1` (`NaN` has no sign and is given `0`). -/
def sign : JSNum → Int
  | nan => 0
  | posInf => 1
  | negInf => -1
  | fin m _ => Int.sign m

/-- Negation `-x`. -/
def neg : JSNum → JSNum
  | nan => nan
  | posInf => negInf
  | negInf => posInf
  | fin m s => fin (-m) s

/-- A power of two `step` with `n < 2 ^ step`, found by doubling; `fuel`
bounds the number of doublings. -/
def growStep : Nat → Nat → Nat → Nat
  | 0, step, _ => step
  | fuel + 1, step, n => if n < 2 ^ step then step else growStep fuel (2 * step) n

/-- The greatest `e` in `lo .. lo + 2 * step - 1` with `2 ^ e ≤ n`, found by
halving `step`, given `2 ^ lo ≤ n < 2 ^ (lo + 2 * step)`. -/
def searchExponent : Nat → Nat → Nat → Nat → Nat
  | 0, lo, _, _ => lo
  | fuel + 1, lo, step, n =>
    if step = 0 then lo
    else if 2 ^ (lo + step) ≤ n then searchExponent fuel (lo + step) (step / 2) n
    else searchExponent fuel lo (step / 2) n

/-- Number of binary digits of `n`: zero for zero, else `floor(log2 n) + 1`. -/
def bitLength (n : Nat) : Nat :=
  if n = 0 then 0 else searchExponent n 0 (growStep n 1 n / 2) n + 1

/-- The binary exponent `e` of a positive quotient:
`2 ^ e ≤ num / den < 2 ^ (e + 1)`. -/
def binaryExponent (num den : Nat) : Int :=
  let e0 : Int := (bitLength num : Int) - (bitLength den : Int)
  let atLeast : Bool :=
    if 0 ≤ e0 then decide (den * 2 ^ e0.toNat ≤ num) else decide (den ≤ num * 2 ^ (-e0).toNat)
  if atLeast then e0 else e0 - 1

/-- The integer nearest to `n / d`, the even one of two that are equally near. -/
def roundHalfEven (n d : Nat) : Nat :=
  let a := n / d
  let r := n % d
  if 2 * r < d then a else if d < 2 * r then a + 1 else a + a % 2

/-- The Number value of the real number `m / 10 ^ s`: the nearest IEEE-754
binary64 value, ties to even, with 53 significant bits, least exponent
`-1074` (below it the result is zero) and an infinity from `2 ^ 1024` on. A
number that is a double already is returned as it is written; every integer
of magnitude at most `2 ^ 53` is one. The sign of zero is not kept: nothing
in the code tells `-0` from `0`. -/
def toDouble (m : Int) (s : Nat) : JSNum :=
  if s = 0 ∧ m.natAbs ≤ 2 ^ 53 then fin m s
  else
    let num := m.natAbs
    let den := 10 ^ s
    let q : Int := max (binaryExponent num den) (-1022) - 52
    if 0 ≤ q then
      let k := roundHalfEven num (den * 2 ^ q.toNat)
      if 2 ^ 1024 ≤ k * 2 ^ q.toNat then (if m < 0 then negInf else posInf)
      else if num % (den * 2 ^ q.toNat) = 0 then fin m s
      else fin (Int.sign m * ((k * 2 ^ q.toNat : Nat) : Int)) 0
    else
      let k := roundHalfEven (num * 2 ^ (-q).toNat) den
      if (num * 2 ^ (-q).toNat) % den = 0 then fin m s
      else fin (Int.sign m * ((k * 5 ^ (-q).toNat : Nat) : Int)) (-q).toNat

/-- Rounding of a parsed number to its Number value. -/
def rounded : JSNum → JSNum
  | fin m s => toDouble m s
  | x => x

/-- Addition `x + y` of numbers: the exact sum, rounded. -/
def add : JSNum → JSNum → JSNum
  | nan, _ => nan
  | _, nan => nan
  | posInf, negInf => nan
  | negInf, posInf => nan
  | posInf, _ => posInf
  | negInf, _ => negInf
  | _, posInf => posInf
  | _, negInf => negInf
  | fin a s, fin b t => toDouble (a * ((10 ^ t : Nat) : Int) + b * ((10 ^ s : Nat) : Int)) (s + t)

/-- Subtraction `x - y`. -/
def sub (x y : JSNum) : JSNum := add x (neg y)

/-- Multiplication `x * y`: the exact product, rounded. -/
def mul : JSNum → JSNum → JSNum
  | nan, _ => nan
  | _, nan => nan
  | fin a s, fin b t => toDouble (a * b) (s + t)
  | x, y =>
    if sign x * sign y = 0 then nan
    else if sign x * sign y > 0 then posInf else negInf

/-- The relational comparison `x < y`; false as soon as an operand is `NaN`. -/
def lt : JSNum → JSNum → Bool
  | nan, _ => false
  | _, nan => false
  | posInf, _ => false
  | _, posInf => true
  | _, negInf => false
  | negInf, _ => true
  | fin a s, fin b t => decide (a * ((10 ^ t : Nat) : Int) < b * ((10 ^ s : Nat) : Int))

/-- The comparison `x > y`, which JavaScript evaluates as `y < x`. -/
def gt (x y : JSNum) : Bool := lt y x

/-- The comparison `x <= y`: `y < x` is false and no operand is `NaN`. -/
def le : JSNum → JSNum → Bool
  | nan, _ => false
  | _, nan => false
  | x, y => !(lt y x)

/-- The boolean coercion of a number: `NaN` and zero are falsy. -/
def truthy : JSNum → Bool
  | nan => false
  | posInf => true
  | negInf => true
  | fin m _ => decide (m ≠ 0)

end JSNum

/-! ## `StringToNumber` -/

/-- The characters `StrWhiteSpaceChar` of ECMAScript (white space and line
terminators), which `StringToNumber` strips on both sides. -/
def isStrWhiteSpaceChar (c : Char) : Bool :=
  let n := c.toNat
  (9 ≤ n && n ≤ 13) || n = 0x20 || n = 0xA0 || n = 0x1680 ||
  (0x2000 ≤ n && n ≤ 0x200A) || n = 0x2028 || n = 0x2029 || n = 0x202F ||
  n = 0x205F || n = 0x3000 || n = 0xFEFF

/-- Strip `StrWhiteSpaceChar`s from both ends. -/
def trimChars (cs : List Char) : List Char :=
  ((cs.dropWhile isStrWhiteSpaceChar).reverse.dropWhile isStrWhiteSpaceChar).reverse

/-- Value of a digit in a base up to 16; `none` for any other character. -/
def digitValue (base : Nat) (c : Char) : Option Nat :=
  let n := c.toNat
  let v : Option Nat :=
    if 48 ≤ n ∧ n ≤ 57 then some (n - 48)
    else if 97 ≤ n ∧ n ≤ 102 then some (n - 87)
    else if 65 ≤ n ∧ n ≤ 70 then some (n - 55)
    else none
  match v with
  | some d => if d < base then some d else none
  | none => none

/-- Is `c` a digit of the base? -/
def isDigitOf (base : Nat) (c : Char) : Bool := (digitValue base c).isSome

/-- The natural number written by a list of digits of the base. -/
def digitsToNat (base : Nat) (ds : List Char) : Nat :=
  ds.foldl (fun acc c => acc * base + (digitValue base c).getD 0) 0

/-- A `NonDecimalIntegerLiteral` body: one or more digits of the base, nothing
else. -/
def nonDecimalLiteral (base : Nat) (ds : List Char) : JSNum :=
  if ds ≠ [] ∧ ds.all (isDigitOf base) = true then JSNum.fin (digitsToNat base ds) 0
  else JSNum.nan

/-- The `ExponentPart_opt` that ends a decimal literal: `none` when the rest of
the string is not an exponent part, otherwise the exponent. -/
def exponentPart (cs : List Char) : Option Int :=
  match cs with
  | [] => some 0
  | c :: rest =>
    if c = 'e' ∨ c = 'E' then
      let (neg, ds) : Bool × List Char :=
        match rest with
        | '+' :: ds => (false, ds)
        | '-' :: ds => (true, ds)
        | ds => (false, ds)
      if ds ≠ [] ∧ ds.all (isDigitOf 10) = true then
        some (if neg then -(digitsToNat 10 ds : Int) else (digitsToNat 10 ds : Int))
      else none
    else none

/-- A `StrUnsignedDecimalLiteral` other than `Infinity`: digits, an optional
fraction, an optional exponent; at least one digit before the exponent. -/
def unsignedDecimal (cs : List Char) : Option (Nat × Nat) :=
  let ip := cs.takeWhile (isDigitOf 10)
  let r1 := cs.dropWhile (isDigitOf 10)
  let (fp, r2) : List Char × List Char :=
    match r1 with
    | '.' :: r => (r.takeWhile (isDigitOf 10), r.dropWhile (isDigitOf 10))
    | r => ([], r)
  if ip = [] ∧ fp = [] then none
  else
    match exponentPart r2 with
    | none => none
    | some e =>
      let mant := digitsToNat 10 (ip ++ fp)
      if 0 ≤ e then some (mant * 10 ^ e.toNat, fp.length)
      else some (mant, fp.length + (-e).toNat)

/-- A `StrDecimalLiteral`: optional sign, then `Infinity` or an unsigned
decimal literal. -/
def strDecimalLiteral (cs : List Char) : JSNum :=
  let (neg, body) : Bool × List Char :=
    match cs with
    | '+' :: r => (false, r)
    | '-' :: r => (true, r)
    | r => (false, r)
  if body = "Infinity".toList then (if neg then JSNum.negInf else JSNum.posInf)
  else
    match unsignedDecimal body with
    | none => JSNum.nan
    | some (mant, scale) => JSNum.fin (if neg then -(mant : Int) else (mant : Int)) scale

/-- The mathematical value of a `StringNumericLiteral`, before rounding. -/
def charsToNumber (cs : List Char) : JSNum :=
  match trimChars cs with
  | [] => JSNum.fin 0 0
  | '0' :: 'x' :: ds => nonDecimalLiteral 16 ds
  | '0' :: 'X' :: ds => nonDecimalLiteral 16 ds
  | '0' :: 'o' :: ds => nonDecimalLiteral 8 ds
  | '0' :: 'O' :: ds => nonDecimalLiteral 8 ds
  | '0' :: 'b' :: ds => nonDecimalLiteral 2 ds
  | '0' :: 'B' :: ds => nonDecimalLiteral 2 ds
  | t => strDecimalLiteral t

/-- `Number(s)` / `+s` for a string `s`: `StringToNumber`, the mathematical
value of the literal rounded to a double. -/
def stringToNumber (s : String) : JSNum := (charsToNumber s.toList).rounded

/-! ## JavaScript values -/

/-- The JavaScript values that occur as request parameters and their
defaults: `undefined`, a string, or a number. -/
inductive JSVal where
  | undefined : JSVal
  | str (s : String) : JSVal
  | num (n : JSNum) : JSVal
  deriving Repr, DecidableEq

namespace JSVal

/-- `ToBoolean`: `undefined`, the empty string, `NaN` and zero are falsy. -/
def truthy : JSVal → Bool
  | undefined => false
  | str s => decide (s.toList ≠ [])
  | num n => n.truthy

/-- `ToNumber`, the coercion behind `+v`, `v - 1`, `v * 5`, `v <= 0`, `v > 1`. -/
def toNumber : JSVal → JSNum
  | undefined => JSNum.nan
  | str s => stringToNumber s
  | num n => n

/-- The expression `a || b`. -/
def or (a b : JSVal) : JSVal := if a.truthy then a else b

end JSVal

/-! ## `Array.prototype.slice` -/

/-- `ToIntegerOrInfinity` followed by the clamping of a relative index of
`slice` into `0 .. len`. -/
def clampIndex (len : Nat) : JSNum → Nat
  | JSNum.nan => 0
  | JSNum.posInf => len
  | JSNum.negInf => 0
  | JSNum.fin m s =>
    let rel : Int := Int.tdiv m ((10 ^ s : Nat) : Int)
    if rel < 0 then (Int.toNat ((len : Int) + rel)) else min rel.toNat len

/-- The call `xs.slice(start, end)`. -/
def jsSlice {α : Type} (xs : List α) (start stop : JSNum) : List α :=
  let k := clampIndex xs.length start
  let final := clampIndex xs.length stop
  (xs.drop k).take (final - k)

/-! ## `Array.prototype.sort` -/

/-- The call `xs.sort(compare)`. The sort is stable, and for a comparator that
orders its arguments consistently the result is the one insertion computes:
an element goes before the first element it does not compare greater than. -/
def jsSort {α : Type} (compare : α → α → Int) (xs : List α) : List α :=
  xs.insertionSort (fun a b => compare a b ≤ 0)

/-! ## The store -/

deriving instance DecidableEq for Except

/-- A row of table `meals`. -/
structure MealRow where
  id : Int
  name : String
  username : String
  deriving Repr, DecidableEq

/-- A row of table `ingredients`; `cost` is the decimal amount in hundredths. -/
structure IngredientRow where
  id : Int
  name : String
  cost : Int
  meal_id : Int
  username : String
  deriving Repr, DecidableEq

/-- The contents of the two tables the data-access object works on. The
schema (constraints, referential actions, generated ids) is not part of the
source: a `SELECT`, `UPDATE` or `DELETE` is embedded as what its text denotes
on these rows, and the outcome of an `INSERT` is left to `dbQuery`. -/
structure Store where
  meals : List MealRow
  ingredients : List IngredientRow
  deriving Repr, DecidableEq

/-- What `dbQuery` resolves to, as far as the code reads it for a statement
that returns no rows. -/
structure QueryResult where
  rowCount : Nat
  deriving Repr, DecidableEq

/-- The `dbQuery` of `lib/db-query.js` for the `INSERT` statements: statement
text and parameters to a result, or the thrown error as `String(error)`. -/
abbrev DbQuery := String → List JSVal → Except String QueryResult

/-- A number sent as the value of an integer column or expression: its
decimal text must be an integer, and one of 32 bits. -/
def pgInteger : JSNum → Except String Int
  | JSNum.fin m s =>
    if m % ((10 ^ s : Nat) : Int) = 0 then
      if -2147483648 ≤ m / ((10 ^ s : Nat) : Int) ∧ m / ((10 ^ s : Nat) : Int) ≤ 2147483647 then
        Except.ok (m / ((10 ^ s : Nat) : Int))
      else Except.error "value out of range for type integer"
    else Except.error "invalid input syntax for type integer"
  | _ => Except.error "invalid input syntax for type integer"

/-- The white space the store skips around a numeric text. -/
def isAsciiSpace (c : Char) : Bool := decide (c.toNat = 32 ∨ (9 ≤ c.toNat ∧ c.toNat ≤ 13))

/-- A text sent for the `cost` column, read as the store reads a `numeric`:
optional white space, sign, digits with an optional fraction and exponent,
taken exactly and kept in hundredths (rounded half away from zero, as
`numeric` with scale 2 does). Any other text is an error; so are the texts
`NaN` and `Infinity`, which are no decimal amounts of the data model. -/
def pgCost (text : String) : Except String Int :=
  match strDecimalLiteral
      (((text.toList.dropWhile isAsciiSpace).reverse.dropWhile isAsciiSpace).reverse) with
  | JSNum.fin m s =>
    let q := Int.tdiv ((Int.natAbs m * 100 * 2 + 10 ^ s : Nat) : Int) ((2 * 10 ^ s : Nat) : Int)
    Except.ok (if m < 0 then -q else q)
  | _ => Except.error "invalid input syntax for type numeric"

/-! ### Text comparison -/

/-- Lexicographic `≤` on character lists, by code point. -/
def charsLe : List Char → List Char → Bool
  | [], _ => true
  | _ :: _, [] => false
  | a :: as, b :: bs => decide (a.toNat < b.toNat) || (decide (a.toNat = b.toNat) && charsLe as bs)

/-- The order of `ORDER BY name ASC` on text (code-point collation). -/
def textLe (s t : String) : Bool := charsLe s.toList t.toList

/-- The SQL function `lower` (letters of the ASCII range). -/
def lower (s : String) : List Char := s.toList.map Char.toLower

/-- Try `f` on every suffix of the text, longest first, until one matches. -/
def anySuffix (f : List Char → Except String Bool) : List Char → Except String Bool
  | [] => f []
  | c :: t =>
    match f (c :: t) with
    | Except.ok true => Except.ok true
    | Except.ok false => anySuffix f t
    | Except.error e => Except.error e

/-- The `LIKE` match of a text against a pattern: `%` matches any sequence of
characters, `_` any single character, and a backslash makes the next pattern
character literal; a pattern that ends in a lone backslash is an error when
the match reaches it. -/
def likeMatch : List Char → List Char → Except String Bool
  | [], t => Except.ok (decide (t = []))
  | c :: p, t =>
    if c = '%' then anySuffix (likeMatch p) t
    else if c = '_' then
      match t with
      | [] => Except.ok false
      | _ :: ts => likeMatch p ts
    else if c = '\\' then
      match p, t with
      | _, [] => Except.ok false
      | [], _ :: _ => Except.error "LIKE pattern must not end with escape character"
      | d :: q, x :: ts => if d = x then likeMatch q ts else Except.ok false
    else
      match t with
      | [] => Except.ok false
      | x :: ts => if c = x then likeMatch p ts else Except.ok false

/-- The predicate `text ILIKE pattern`: `LIKE` on the lower-cased operands. -/
def ilike (text pattern : String) : Except String Bool :=
  likeMatch (lower pattern) (lower text)

/-- Does `hay` start with `needle`? -/
def beginsWith : List Char → List Char → Bool
  | [], _ => true
  | _ :: _, [] => false
  | a :: as, b :: bs => decide (a = b) && beginsWith as bs

/-- Does `needle` occur in `hay`? This is `/needle/.test(hay)` for a pattern
without special characters. -/
def occursIn (needle : List Char) : List Char → Bool
  | [] => beginsWith needle []
  | c :: hay => beginsWith needle (c :: hay) || occursIn needle hay

/-- Keep the rows a `WHERE` clause accepts; the statement fails when the
clause raises an error on a row. -/
def whereRows {α : Type} (cond : α → Except String Bool) : List α → Except String (List α)
  | [] => Except.ok []
  | r :: rs =>
    match cond r with
    | Except.error e => Except.error e
    | Except.ok b =>
      match whereRows cond rs with
      | Except.error e => Except.error e
      | Except.ok out => Except.ok (if b then r :: out else out)

/-! ## `PgPersistence` -/

/-- A row of `SELECT SUM(cost), meal_id ... GROUP BY meal_id`. -/
structure CostRow where
  sum : Int
  meal_id : Int
  deriving Repr, DecidableEq

/-- A meal row after `sortedMealLists` attached `totalCost` to it. -/
structure Meal where
  id : Int
  name : String
  username : String
  totalCost : Int
  deriving Repr, DecidableEq

/-- The meal row an annotated meal was made from. -/
def Meal.row (m : Meal) : MealRow := { id := m.id, name := m.name, username := m.username }

/-- A meal row after `loadMeal` attached its ingredient rows to it. -/
structure LoadedMeal where
  id : Int
  name : String
  username : String
  ingredients : List IngredientRow
  deriving Repr, DecidableEq

namespace PgPersistence

/-- Statement text of `createMeal`. -/
def CREATE_MEAL : String := "INSERT INTO meals (name, username) VALUES ($1, $2)"

/-- Statement text of `createIngredient`. -/
def CREATE_INGREDIENTS : String :=
  "INSERT INTO ingredients (name, cost, meal_id, username) VALUES ($1, $2, $3, $4)"

/-- The method `isUniqueConstraintViolation(error)`: a regular-expression test
on `String(error)`. -/
def isUniqueConstraintViolation (error : String) : Bool :=
  occursIn "duplicate key value violates unique constraint".toList error.toList

/-- The method `createMeal(name)`: the awaited `dbQuery` is not guarded, so an
error it throws is the rejection of `createMeal`. -/
def createMeal (dbQuery : DbQuery) (username : String) (name : String) : Except String Bool :=
  match dbQuery CREATE_MEAL [JSVal.str name, JSVal.str username] with
  | Except.ok result => Except.ok (decide (result.rowCount > 0))
  | Except.error error => Except.error error

/-- The method `createIngredient(meal_id, name, cost)`: `try` the insert,
`catch` a unique-constraint violation as `false`, rethrow anything else. -/
def createIngredient (dbQuery : DbQuery) (username : String) (meal_id : JSNum) (name : String)
    (cost : JSNum) : Except String Bool :=
  match dbQuery CREATE_INGREDIENTS
      [JSVal.str name, JSVal.num cost, JSVal.num meal_id, JSVal.str username] with
  | Except.ok result => Except.ok (decide (result.rowCount > 0))
  | Except.error error =>
    if isUniqueConstraintViolation error then Except.ok false else Except.error error

/-- The method `deleteMeal(mealId)`:
`DELETE FROM meals WHERE id = $1 AND username = $2`. The statement names no
ingredient; whether the store deletes the ingredients of a deleted meal with
it is declared in the schema (`ON DELETE CASCADE` on `ingredients.meal_id`),
which is not part of the source, so it is the parameter `cascade`. -/
def deleteMeal (cascade : Bool) (username : String) (store : Store) (mealId : JSNum) :
    Except String Bool × Store :=
  match pgInteger mealId with
  | Except.error e => (Except.error e, store)
  | Except.ok id =>
    let hit := fun (r : MealRow) => decide (r.id = id ∧ r.username = username)
    let deleted := (store.meals.filter hit).map (fun r => r.id)
    (Except.ok (decide ((store.meals.filter hit).length > 0)),
      { meals := store.meals.filter (fun r => !hit r),
        ingredients :=
          if cascade then store.ingredients.filter (fun r => decide (r.meal_id ∉ deleted))
          else store.ingredients })

/-- The method `deleteIngredient(mealId, ingredientId)`:
`DELETE FROM ingredients WHERE meal_id = $1 AND id = $2 AND username = $3`. -/
def deleteIngredient (username : String) (store : Store) (mealId ingredientId : JSNum) :
    Except String Bool × Store :=
  match pgInteger mealId, pgInteger ingredientId with
  | Except.ok mid, Except.ok iid =>
    let hit := fun (r : IngredientRow) =>
      decide (r.meal_id = mid ∧ r.id = iid ∧ r.username = username)
    (Except.ok (decide ((store.ingredients.filter hit).length > 0)),
      { store with ingredients := store.ingredients.filter (fun r => !hit r) })
  | Except.error e, _ => (Except.error e, store)
  | _, Except.error e => (Except.error e, store)

/-- The method `existsMealName(name)`:
`SELECT null FROM meals WHERE name ILIKE $1 AND username = $2`. The store
tests the conjuncts in the order of the text on every row of the table: the
pattern is matched against the names of all users' meals, and the owner is
compared where the name matched. -/
def existsMealName (username : String) (store : Store) (name : String) : Except String Bool :=
  match whereRows (fun (r : MealRow) =>
      match ilike r.name name with
      | Except.ok true => Except.ok (decide (r.username = username))
      | other => other) store.meals with
  | Except.ok rows => Except.ok (decide (rows.length > 0))
  | Except.error e => Except.error e

/-- The method `setMealName(mealId, name)`:
`UPDATE meals SET name = $1 WHERE id = $2 AND username = $3`. -/
def setMealName (username : String) (store : Store) (mealId : JSNum) (name : String) :
    Except String Bool × Store :=
  match pgInteger mealId with
  | Except.error e => (Except.error e, store)
  | Except.ok id =>
    let hit := fun (r : MealRow) => decide (r.id = id ∧ r.username = username)
    (Except.ok (decide ((store.meals.filter hit).length > 0)),
      { store with meals := store.meals.map (fun r => if hit r then { r with name := name } else r) })

/-- The method `loadMeal(mealId)`: the first row of
`SELECT * FROM meals WHERE id = $1 AND username = $2`, with the rows of
`SELECT * FROM ingredients where meal_id = $1 AND username = $2` attached;
`none` is `undefined`. -/
def loadMeal (username : String) (store : Store) (mealId : JSNum) :
    Except String (Option LoadedMeal) :=
  match pgInteger mealId with
  | Except.error e => Except.error e
  | Except.ok id =>
    match store.meals.filter (fun r => decide (r.id = id ∧ r.username = username)) with
    | [] => Except.ok none
    | meal :: _ =>
      Except.ok (some
        { id := meal.id, name := meal.name, username := meal.username,
          ingredients :=
            store.ingredients.filter (fun r => decide (r.meal_id = id ∧ r.username = username)) })

/-- The method `loadIngredients(meal_id, ingredientId)`: the first row of
`SELECT * FROM ingredients where meal_id = $1 AND id = $2 AND username = $3`. -/
def loadIngredients (username : String) (store : Store) (meal_id ingredientId : JSNum) :
    Except String (Option IngredientRow) :=
  match pgInteger meal_id, pgInteger ingredientId with
  | Except.ok mid, Except.ok iid =>
    Except.ok ((store.ingredients.filter
      (fun r => decide (r.meal_id = mid ∧ r.id = iid ∧ r.username = username))).head?)
  | Except.error e, _ => Except.error e
  | _, Except.error e => Except.error e

/-- The rows of `SELECT * FROM meals WHERE username = $1 ORDER BY name ASC`. -/
def ALL_MEALS (username : String) (store : Store) : List MealRow :=
  (store.meals.filter (fun r => decide (r.username = username))).insertionSort
    (fun a b => textLe a.name b.name = true)

/-- The rows of
`SELECT SUM(cost), meal_id FROM ingredients WHERE username = $1 GROUP BY meal_id`:
one row for each `meal_id` among the user's ingredient rows. -/
def MEAL_TOTALCOST (username : String) (store : Store) : List CostRow :=
  let rows := store.ingredients.filter (fun r => decide (r.username = username))
  (rows.map (fun r => r.meal_id)).dedup.map (fun id =>
    { sum := ((rows.filter (fun r => decide (r.meal_id = id))).map (fun r => r.cost)).sum,
      meal_id := id })

/-- The body of the `forEach` of `sortedMealLists`: `totalCost` becomes the
`sum` of the first cost row with the meal's id, or `0` when there is none. -/
def attachTotalCost (allCost : List CostRow) (meal : MealRow) : Meal :=
  let totalCost := allCost.filter (fun cost => decide (meal.id = cost.meal_id))
  { id := meal.id, name := meal.name, username := meal.username,
    totalCost := match totalCost with
      | [] => 0
      | first :: _ => first.sum }

/-- What `sortedMealLists` does with the rows of its two queries: annotate,
sort with the comparator `a.totalCost - b.totalCost`, slice. -/
def sortedMealListsRows (allMeals : List MealRow) (allCost : List CostRow)
    (startIndex endIndex : JSNum) : List Meal :=
  let annotated := allMeals.map (attachTotalCost allCost)
  let sorted := jsSort (fun a b => a.totalCost - b.totalCost) annotated
  jsSlice sorted startIndex endIndex

/-- The method `sortedMealLists(startIndex, endIndex)`. The `rows` of both
results are arrays, so the guard `if (!allMeals || !allCost) return undefined`
never fires. -/
def sortedMealLists (username : String) (store : Store) (startIndex endIndex : JSNum) :
    Except String (List Meal) :=
  Except.ok (sortedMealListsRows (ALL_MEALS username store) (MEAL_TOTALCOST username store)
    startIndex endIndex)

/-- The method `numberOfMeals()`: the `rowCount` of
`SELECT * FROM meals WHERE username = $1`. -/
def numberOfMeals (username : String) (store : Store) : Except String Nat :=
  Except.ok (store.meals.filter (fun r => decide (r.username = username))).length

/-- The method `mealTotalCost(mealId)`: the `sum` of the one row of
`SELECT SUM(cost) FROM ingredients WHERE meal_id = $1 AND username = $2`, which
is `null` (`none`) when no ingredient row is selected. -/
def mealTotalCost (username : String) (store : Store) (mealId : JSNum) :
    Except String (Option Int) :=
  match pgInteger mealId with
  | Except.error e => Except.error e
  | Except.ok id =>
    match store.ingredients.filter (fun r => decide (r.meal_id = id ∧ r.username = username)) with
    | [] => Except.ok none
    | rows => Except.ok (some (rows.map (fun r => r.cost)).sum)

/-- The method `existIngredient(name, meal_id)`:
`SELECT null FROM ingredients WHERE name ILIKE $1 AND meal_id = $2 AND username = $3`.
As in `existsMealName` the pattern is matched first, on every row of the
table. -/
def existIngredient (username : String) (store : Store) (name : String) (meal_id : JSNum) :
    Except String Bool :=
  match pgInteger meal_id with
  | Except.error e => Except.error e
  | Except.ok mid =>
    match whereRows (fun (r : IngredientRow) =>
        match ilike r.name name with
        | Except.ok true => Except.ok (decide (r.meal_id = mid ∧ r.username = username))
        | other => other) store.ingredients with
    | Except.ok rows => Except.ok (decide (rows.length > 0))
    | Except.error e => Except.error e

/-- The order of `ORDER BY cost ASC, lower(name) ASC`. -/
def costThenName (a b : IngredientRow) : Bool :=
  decide (a.cost < b.cost) || (decide (a.cost = b.cost) && charsLe (lower a.name) (lower b.name))

/-- The method `sortedIngredients(meal, pageNumber)`:
`SELECT * FROM ingredients WHERE meal_id = $1 AND username = $3
ORDER BY cost ASC, lower(name) ASC LIMIT 5 OFFSET (($2 - 1) * 5)`.
An `undefined` page number is sent as `NULL`, and `OFFSET NULL` skips nothing;
the offset is computed in 32-bit integers, and a negative offset is an error
of the store. -/
def sortedIngredients (username : String) (store : Store) (mealId : Int) (pageNumber : JSVal) :
    Except String (List IngredientRow) :=
  let rows := (store.ingredients.filter
    (fun r => decide (r.meal_id = mealId ∧ r.username = username))).insertionSort
      (fun a b => costThenName a b = true)
  match pageNumber with
  | JSVal.undefined => Except.ok (rows.take 5)
  | v =>
    match pgInteger v.toNumber with
    | Except.error e => Except.error e
    | Except.ok p =>
      if p - 1 < -2147483648 ∨ 2147483647 < (p - 1) * 5 ∨ (p - 1) * 5 < -2147483648 then
        Except.error "integer out of range"
      else if (p - 1) * 5 < 0 then Except.error "OFFSET must not be negative"
      else Except.ok ((rows.drop ((p - 1) * 5).toNat).take 5)

/-- The method `numberOfIngredients(mealId)`: the `rowCount` of
`SELECT * FROM ingredients WHERE meal_id = $1 AND username = $2`. -/
def numberOfIngredients (username : String) (store : Store) (mealId : JSNum) :
    Except String Nat :=
  match pgInteger mealId with
  | Except.error e => Except.error e
  | Except.ok id =>
    Except.ok (store.ingredients.filter
      (fun r => decide (r.meal_id = id ∧ r.username = username))).length

/-- The method `setIngredientName(name, ingredient_id, meal_id)`:
`UPDATE ingredients SET name = $1 WHERE id = $2 AND meal_id = $3 AND username = $4`. -/
def setIngredientName (username : String) (store : Store) (name : String)
    (ingredient_id meal_id : JSNum) : Except String Bool × Store :=
  match pgInteger ingredient_id, pgInteger meal_id with
  | Except.ok iid, Except.ok mid =>
    let hit := fun (r : IngredientRow) =>
      decide (r.id = iid ∧ r.meal_id = mid ∧ r.username = username)
    (Except.ok (decide ((store.ingredients.filter hit).length > 0)),
      { store with
        ingredients := store.ingredients.map (fun r => if hit r then { r with name := name } else r) })
  | Except.error e, _ => (Except.error e, store)
  | _, Except.error e => (Except.error e, store)

/-- The method `setIngredientCost(cost, ingredient_id, meal_id)`:
`UPDATE ingredients SET cost = $1 WHERE id = $2 AND meal_id = $3 AND username = $4`.
The cost is the text of the form field, which is what its one caller passes. -/
def setIngredientCost (username : String) (store : Store) (cost : String)
    (ingredient_id meal_id : JSNum) : Except String Bool × Store :=
  match pgCost cost, pgInteger ingredient_id, pgInteger meal_id with
  | Except.ok c, Except.ok iid, Except.ok mid =>
    let hit := fun (r : IngredientRow) =>
      decide (r.id = iid ∧ r.meal_id = mid ∧ r.username = username)
    (Except.ok (decide ((store.ingredients.filter hit).length > 0)),
      { store with
        ingredients := store.ingredients.map (fun r => if hit r then { r with cost := c } else r) })
  | Except.error e, _, _ => (Except.error e, store)
  | _, Except.error e, _ => (Except.error e, store)
  | _, _, Except.error e => (Except.error e, store)

end PgPersistence

/-! ## Route handlers of `meals.js`

Every handler below is registered behind `requiresAuthentication`; `username`
is the user name of the signed-in session, from which the middleware builds
the request's `PgPersistence`. A handler that throws (or awaits a rejected
promise) is `Except.error`. -/

/-- The constant `LIMIT` of the two list routes. -/
def LIMIT : Nat := 5

/-- The expression `Math.ceil(totalRows / LIMIT)` for a row count. -/
def ceilOfQuotient (totalRows limit : Nat) : Nat := (totalRows + (limit - 1)) / limit

/-- The message `req.flash("error", ...)` of the meal list. -/
def PAGE_NOT_FOUND : String × String := ("error", "The page not found.")

/-- What `GET /meals` renders: the view `meals` with these locals. `flash` is
the `req.flash()` that `rerenderMeal` passes, empty when the view is rendered
without it. -/
structure MealsPage where
  flash : List (String × String)
  meals : List Meal
  totalPage : Nat
  page : Nat
  deriving Repr, DecidableEq

/-- The three not-found branches of `GET /meals`: flash the error, load the
first page and call `rerenderMeal`. -/
def rerenderFirstPage (username : String) (store : Store) (totalPage : Nat) :
    Except String MealsPage :=
  match PgPersistence.sortedMealLists username store (JSNum.ofInt 0) (JSNum.ofInt LIMIT) with
  | Except.error e => Except.error e
  | Except.ok meals =>
    Except.ok { flash := [PAGE_NOT_FOUND], meals := meals, totalPage := totalPage, page := 1 }

/-- The handler of `GET /meals`; `queryPage` is `req.query.page`. -/
def getMeals (username : String) (store : Store) (queryPage : JSVal) : Except String MealsPage :=
  let pageNumber := JSVal.or queryPage (JSVal.num (JSNum.ofInt 1))
  match PgPersistence.numberOfMeals username store with
  | Except.error e => Except.error e
  | Except.ok totalRows =>
    let totalPage := ceilOfQuotient totalRows LIMIT
    let startIndex := JSNum.mul (JSNum.sub pageNumber.toNumber (JSNum.ofInt 1)) (JSNum.ofInt LIMIT)
    let endIndex := JSNum.mul pageNumber.toNumber (JSNum.ofInt LIMIT)
    match PgPersistence.sortedMealLists username store startIndex endIndex with
    | Except.error e => Except.error e
    | Except.ok meals =>
      if decide (totalPage > 0) && JSNum.gt pageNumber.toNumber (JSNum.ofInt totalPage) then
        rerenderFirstPage username store totalPage
      else if !pageNumber.toNumber.truthy || JSNum.le pageNumber.toNumber (JSNum.ofInt 0) then
        rerenderFirstPage username store totalPage
      else if decide (totalRows = 0) && JSNum.gt pageNumber.toNumber (JSNum.ofInt 1) then
        rerenderFirstPage username store totalPage
      else
        Except.ok { flash := [], meals := meals, totalPage := totalPage, page := 1 }

/-- What `GET /meals/:mealId` answers. -/
inductive MealReply where
  /-- The helper `rerenderPageNotFound()`: flash `The page not found` and redirect to `/meals`. -/
  | pageNotFound : MealReply
  /-- The view `ingredients` with the meal, its page of ingredients and its total cost. -/
  | ingredients (meal : LoadedMeal) (totalCost : Option Int) (totalPage page : Nat) : MealReply
  deriving Repr, DecidableEq

/-- The handler of `GET /meals/:mealId`. -/
def getMeal (username : String) (store : Store) (mealId : String) (queryPage : JSVal) :
    Except String MealReply :=
  let pageNumber := JSVal.or queryPage (JSVal.num (JSNum.ofInt 1))
  if !(stringToNumber mealId).truthy then Except.ok MealReply.pageNotFound
  else
    match PgPersistence.loadMeal username store (stringToNumber mealId) with
    | Except.error e => Except.error e
    | Except.ok none => Except.ok MealReply.pageNotFound
    | Except.ok (some meal) =>
      match PgPersistence.numberOfIngredients username store (stringToNumber mealId) with
      | Except.error e => Except.error e
      | Except.ok totalRows =>
        let totalPage := ceilOfQuotient totalRows LIMIT
        if decide (totalPage > 0) && JSNum.gt pageNumber.toNumber (JSNum.ofInt totalPage) then
          Except.ok MealReply.pageNotFound
        else if !pageNumber.toNumber.truthy then
          Except.ok MealReply.pageNotFound
        else if decide (totalRows = 0) && JSNum.gt pageNumber.toNumber (JSNum.ofInt 1) then
          Except.ok MealReply.pageNotFound
        else
          match PgPersistence.sortedIngredients username store meal.id
              (JSVal.num pageNumber.toNumber) with
          | Except.error e => Except.error e
          | Except.ok rows =>
            match PgPersistence.mealTotalCost username store (stringToNumber mealId) with
            | Except.error e => Except.error e
            | Except.ok totalCost =>
              Except.ok (MealReply.ingredients { meal with ingredients := rows } totalCost totalPage 1)

/-! ### Form validation (`express-validator`) -/

/-- The sanitizer `.trim()`: strips the characters of `\s` on both sides. -/
def trim (s : String) : String := String.mk (trimChars s.toList)

/-- The class `\d` of a regular expression. -/
def isDecimalDigit (c : Char) : Bool := decide (48 ≤ c.toNat ∧ c.toNat ≤ 57)

/-- The repetition `(,\d{3})*` up to the end of the whole amount. -/
def thousandsGroups : List Char → Bool
  | [] => true
  | c :: a :: b :: d :: rest =>
    decide (c = ',') && isDecimalDigit a && isDecimalDigit b && isDecimalDigit d &&
      thousandsGroups rest
  | _ => false

/-- The whole amount of a currency text: `0`, or `[1-9]\d*`, or
`[1-9]\d{0,2}(,\d{3})*`, or nothing. -/
def wholeAmount (w : List Char) : Bool :=
  match w with
  | [] => true
  | c :: rest =>
    (decide (c = '0') && decide (rest = [])) ||
    (isDecimalDigit c && decide (c ≠ '0') &&
      (rest.all isDecimalDigit ||
        (decide ((rest.takeWhile isDecimalDigit).length ≤ 2) &&
          thousandsGroups (rest.dropWhile isDecimalDigit))))

/-- The decimal amount of a currency text: `(\.\d{2})?` up to the end. -/
def decimalAmount (r : List Char) : Bool :=
  match r with
  | [] => true
  | [p, a, b] => decide (p = '.') && isDecimalDigit a && isDecimalDigit b
  | _ => false

/-- The validator `.isCurrency()` with its default options, that is the
regular expression
`^(?!-? )(?=.*\d)-?(\$)?(0|[1-9]\d*|[1-9]\d{0,2}(,\d{3})*)?(\.(\d{2}))?$`:
an optional minus sign, an optional dollar sign, an optional whole amount, an
optional two-digit decimal amount, and at least one digit. -/
def isCurrency (s : String) : Bool :=
  let cs := s.toList
  let afterSign := match cs with
    | '-' :: r => r
    | r => r
  let afterSymbol := match afterSign with
    | '$' :: r => r
    | r => r
  let inWhole := fun (c : Char) => isDecimalDigit c || decide (c = ',')
  cs.any isDecimalDigit && wholeAmount (afterSymbol.takeWhile inWhole) &&
    decimalAmount (afterSymbol.dropWhile inWhole)

/-- The messages of the validation chain of `ingredientName`, on the trimmed
field: both `isLength` validators run, on the number of code points. -/
def ingredientNameErrors (ingredientName : String) : List String :=
  (if 1 ≤ ingredientName.length then [] else ["The ingredient name is required."]) ++
  (if ingredientName.length ≤ 100 then []
   else ["ingredient name must be between 1 and 100 characters."])

/-- The messages of the validation chain of `ingredientCost`, on the trimmed
field: `isLength`, `bail()`, then `isCurrency`. -/
def ingredientCostErrors (ingredientCost : String) : List String :=
  if ¬ 1 ≤ ingredientCost.length then ["The ingredient cost is required."]
  else if isCurrency ingredientCost then []
  else ["Ingredient cost must be positive number with two digit decimal"]

/-- The call `errors.array().forEach(message => req.flash("error", message.msg))`. -/
def flashErrors (messages : List String) : List (String × String) :=
  messages.map (fun msg => ("error", msg))

/-- The number literal `0.01`. -/
def MIN_COST : JSNum := JSNum.toDouble 1 2

/-- The number literal `999.99`. -/
def MAX_COST : JSNum := JSNum.toDouble 99999 2

/-- What a form handler answers: the form rendered again with the flashed
messages, or a redirect after success with the flashed messages. -/
inductive FormReply where
  | rerender (view : String) (flash : List (String × String)) : FormReply
  | redirect (url : String) (flash : List (String × String)) : FormReply
  deriving Repr, DecidableEq

/-- The handler of `POST /meals/:mealId` (add an ingredient); the two body
fields are given as submitted, the chains trim them first. -/
def postIngredient (dbQuery : DbQuery) (username : String) (store : Store)
    (mealId : String) (bodyName bodyCost : String) : Except String FormReply :=
  let ingredientName := trim bodyName
  let ingredientCost := trim bodyCost
  match PgPersistence.loadMeal username store (stringToNumber mealId) with
  | Except.error e => Except.error e
  | Except.ok meal =>
    let errors := ingredientNameErrors ingredientName ++ ingredientCostErrors ingredientCost
    if errors ≠ [] then
      match meal with
      | none => Except.error "Not found."
      | some m =>
        match PgPersistence.sortedIngredients username store m.id JSVal.undefined with
        | Except.error e => Except.error e
        | Except.ok _ => Except.ok (FormReply.rerender "new-ingredient" (flashErrors errors))
    else
      match PgPersistence.existIngredient username store ingredientName (stringToNumber mealId) with
      | Except.error e => Except.error e
      | Except.ok true =>
        Except.ok (FormReply.rerender "new-ingredient" [("error", "The ingredient already exists.")])
      | Except.ok false =>
        if JSNum.lt (stringToNumber ingredientCost) MIN_COST ||
            JSNum.gt (stringToNumber ingredientCost) MAX_COST then
          Except.ok (FormReply.rerender "new-ingredient"
            [("error", "The cost should be between $0.01 - $999.99")])
        else
          match PgPersistence.createIngredient dbQuery username (stringToNumber mealId)
              ingredientName (stringToNumber ingredientCost) with
          | Except.error e => Except.error e
          | Except.ok false =>
            Except.ok (FormReply.rerender "new-ingredient"
              [("error", "The ingredient already exists.")])
          | Except.ok true =>
            Except.ok (FormReply.redirect ("/meals/" ++ mealId)
              [("success", "The ingredient has been added.")])

/-- The handler of `POST /meals/:mealId/ingredients/:ingredientId/edit-cost`,
with the store it leaves. -/
def postEditCost (username : String) (store : Store) (mealId ingredientId : String)
    (bodyCost : String) : Except String FormReply × Store :=
  let ingredientCost := trim bodyCost
  match PgPersistence.loadMeal username store (stringToNumber mealId) with
  | Except.error e => (Except.error e, store)
  | Except.ok meal =>
    match PgPersistence.loadIngredients username store (stringToNumber mealId)
        (stringToNumber ingredientId) with
    | Except.error e => (Except.error e, store)
    | Except.ok _ =>
      let errors := ingredientCostErrors ingredientCost
      if errors ≠ [] then
        match meal with
        | none => (Except.error "Not found.", store)
        | some m =>
          match PgPersistence.sortedIngredients username store m.id JSVal.undefined with
          | Except.error e => (Except.error e, store)
          | Except.ok _ =>
            (Except.ok (FormReply.rerender "edit-ingredient-cost" (flashErrors errors)), store)
      else if JSNum.lt (stringToNumber ingredientCost) MIN_COST ||
          JSNum.gt (stringToNumber ingredientCost) MAX_COST then
        (Except.ok (FormReply.rerender "edit-ingredient-cost"
          [("error", "The cost should be between $0.01 - $999.99")]), store)
      else
        match PgPersistence.setIngredientCost username store ingredientCost
            (stringToNumber ingredientId) (stringToNumber mealId) with
        | (Except.error e, after) => (Except.error e, after)
        | (Except.ok _, after) =>
          (Except.ok (FormReply.redirect ("/meals/" ++ mealId)
            [("success", "Ingredient cost updated.")]), after)

/-! ## Ownership of rows -/

/-- The rows of the store that `user` owns. -/
def Store.ownedBy (store : Store) (user : String) : Store :=
  { meals := store.meals.filter (fun r => decide (r.username = user)),
    ingredients := store.ingredients.filter (fun r => decide (r.username = user)) }

/-- The rows of the store that `user` does not own. -/
def Store.notOwnedBy (store : Store) (user : String) : Store :=
  { meals := store.meals.filter (fun r => decide (r.username ≠ user)),
    ingredients := store.ingredients.filter (fun r => decide (r.username ≠ user)) }

/-! ## Reading a number -/

/-- The number is zero. -/
def JSNum.IsZero : JSNum → Prop
  | JSNum.fin m k => JSNum.value m k = 0
  | _ => False

/-- The number is below zero. -/
def JSNum.IsNegative : JSNum → Prop
  | JSNum.negInf => True
  | JSNum.fin m k => JSNum.value m k < 0
  | _ => False

/-- The number is above zero. -/
def JSNum.IsPositive : JSNum → Prop
  | JSNum.posInf => True
  | JSNum.fin m k => 0 < JSNum.value m k
  | _ => False

/-- The number is greater than the natural number `b`. -/
def JSNum.Exceeds (n : JSNum) (b : Nat) : Prop :=
  match n with
  | JSNum.posInf => True
  | JSNum.fin m k => (b : ℚ) < JSNum.value m k
  | _ => False

/-- The number is a positive integer. -/
def JSNum.IsPositiveInteger : JSNum → Prop
  | JSNum.fin m k => ∃ z : Nat, 0 < z ∧ JSNum.value m k = (z : ℚ)
  | _ => False

/-- The not-found condition of the meal list as the code decides it: the page
number is not a positive number, or it exceeds the number of pages while there
is a page, or there is no row and it exceeds 1. -/
def PageNotFound (totalRows : Nat) (n : JSNum) : Prop :=
  ¬ n.IsPositive ∨ (0 < ⌈(totalRows : ℚ) / 5⌉₊ ∧ n.Exceeds ⌈(totalRows : ℚ) / 5⌉₊) ∨
    (totalRows = 0 ∧ n.Exceeds 1)

/-- The number the list routes read the page from: `req.query.page || 1`,
coerced to a number. -/
def requestedPage (queryPage : JSVal) : JSNum :=
  (JSVal.or queryPage (JSVal.num (JSNum.ofInt 1))).toNumber

/-- The number of meal rows of a user. -/
def mealCount (username : String) (store : Store) : Nat :=
  (store.meals.filter (fun r => decide (r.username = username))).length

/-- The rows `sortedMealLists(startIndex, endIndex)` resolves to. -/
def mealWindow (username : String) (store : Store) (startIndex endIndex : JSNum) : List Meal :=
  PgPersistence.sortedMealListsRows (PgPersistence.ALL_MEALS username store)
    (PgPersistence.MEAL_TOTALCOST username store) startIndex endIndex

/-! ## Sample data -/

/-- Two meals of user `u` whose order by name and order by cost differ, and
one meal of user `v`. -/
def sampleStore : Store :=
  { meals := [
      { id := 1, name := "Apple pie", username := "u" },
      { id := 2, name := "Banana bread", username := "u" },
      { id := 3, name := "Curry", username := "v" }],
    ingredients := [
      { id := 1, name := "Apple", cost := 350, meal_id := 1, username := "u" },
      { id := 2, name := "Flour", cost := 150, meal_id := 1, username := "u" },
      { id := 3, name := "Banana", cost := 100, meal_id := 2, username := "u" },
      { id := 4, name := "Rice", cost := 200, meal_id := 3, username := "v" }] }

/-- The sample store after user `u` added an ingredient to meal 3, which
belongs to `v`. -/
def foreignIngredientStore : Store :=
  { sampleStore with
    ingredients := sampleStore.ingredients ++
      [{ id := 5, name := "Salt", cost := 100, meal_id := 3, username := "u" }] }

/-- The cost rows of the meals of the sample store. -/
def sampleCosts : List CostRow :=
  [{ sum := 500, meal_id := 1 }, { sum := 100, meal_id := 2 }, { sum := 200, meal_id := 3 }]

/-- A store without rows. -/
def emptyStore : Store := { meals := [], ingredients := [] }

/-- Six meals of user `u`, none with an ingredient: two pages. -/
def sixMeals : Store :=
  { meals := [
      { id := 1, name := "a", username := "u" },
      { id := 2, name := "b", username := "u" },
      { id := 3, name := "c", username := "u" },
      { id := 4, name := "d", username := "u" },
      { id := 5, name := "e", username := "u" },
      { id := 6, name := "f", username := "u" }],
    ingredients := [] }

/-- The text of the error PostgreSQL raises for a duplicate key, up to the
name of the violated constraint. -/
def duplicateKeyError : String := "error: duplicate key value violates unique constraint"

/-- A `dbQuery` whose store rejects every statement with a duplicate key. -/
def rejectDuplicate : DbQuery := fun _ _ => Except.error duplicateKeyError

/-- A `dbQuery` whose store accepts every statement and reports one row. -/
def acceptOne : DbQuery := fun _ _ => Except.ok { rowCount := 1 }

/-- A `dbQuery` whose store accepts exactly one statement, the `INSERT` of
`createIngredient` with the given parameters, and reports one inserted row. -/
def insertOnly (expected : List JSVal) : DbQuery := fun text params =>
  if text = PgPersistence.CREATE_INGREDIENTS ∧ params = expected then
    Except.ok { rowCount := 1 }
  else Except.error "unexpected statement"

/-! ## The sorted array and its pages -/

/-- The array `allMeals` of `sortedMealLists` after `sort`, before `slice`. -/
def sortedRows (allMeals : List MealRow) (allCost : List CostRow) : List Meal :=
  jsSort (fun a b => a.totalCost - b.totalCost)
    (allMeals.map (PgPersistence.attachTotalCost allCost))

/-- The rows of the user's cost-sorted meal list, unsliced. -/
def sortedMeals (username : String) (store : Store) : List Meal :=
  sortedRows (PgPersistence.ALL_MEALS username store) (PgPersistence.MEAL_TOTALCOST username store)

/-- The rows of the `ORDER BY name ASC` query of `sortedMealLists`, in the
order of the query, each with its `totalCost` attached. -/
def annotatedMeals (username : String) (store : Store) : List Meal :=
  (PgPersistence.ALL_MEALS username store).map
    (PgPersistence.attachTotalCost (PgPersistence.MEAL_TOTALCOST username store))

/-- The window `GET /meals` requests from `sortedMealLists` for the integer
page `p`: `startIndex = (p - 1) * LIMIT`, `endIndex = p * LIMIT`. These are
the integers; the handler computes them in double arithmetic, which is exact
as long as `p * LIMIT` is at most `2 ^ 53` (`requested_window_eq_pageWindow`). -/
def pageWindow (username : String) (store : Store) (p : Nat) : List Meal :=
  mealWindow username store (JSNum.ofInt (((p - 1) * LIMIT : Nat) : Int))
    (JSNum.ofInt ((p * LIMIT : Nat) : Int))

/-! ## Properties of `sortedMealLists` -/

theorem clampIndex_ofNat (len n : Nat) : clampIndex len (JSNum.ofInt (n : Int)) = min n len := by
  have h : ¬ ((n : Int) < 0) := by omega
  simp [clampIndex, JSNum.ofInt, h]

theorem drop_take_min {α : Type} (l : List α) (a b : Nat) (h : a ≤ b) :
    (l.drop (min a l.length)).take (min b l.length - min a l.length) =
      (l.drop a).take (b - a) := by
  rcases Nat.lt_or_ge l.length a with h1 | h1
  · have h2 : l.length ≤ b := by omega
    rw [Nat.min_eq_right (Nat.le_of_lt h1), Nat.min_eq_right h2]
    simp [List.drop_eq_nil_of_le (Nat.le_of_lt h1)]
  · rw [Nat.min_eq_left h1]
    rcases Nat.lt_or_ge l.length b with h2 | h2
    · rw [Nat.min_eq_right (Nat.le_of_lt h2)]
      rw [List.take_of_length_le, List.take_of_length_le]
      · simp
        omega
      · simp
    · rw [Nat.min_eq_left h2]

theorem jsSlice_ofNat {α : Type} (xs : List α) (a b : Nat) (h : a ≤ b) :
    jsSlice xs (JSNum.ofInt (a : Int)) (JSNum.ofInt (b : Int)) = (xs.drop a).take (b - a) := by
  simp only [jsSlice, clampIndex_ofNat]
  exact drop_take_min xs a b h

theorem attachTotalCost_row (allCost : List CostRow) (meal : MealRow) :
    (PgPersistence.attachTotalCost allCost meal).row = meal := by
  cases meal
  simp [PgPersistence.attachTotalCost, Meal.row]

theorem attachTotalCost_id (allCost : List CostRow) (meal : MealRow) :
    (PgPersistence.attachTotalCost allCost meal).id = meal.id := rfl

theorem attachTotalCost_of_mem (allCost : List CostRow) (meal : MealRow)
    (hS : allCost.Pairwise (fun a b => a.meal_id ≠ b.meal_id))
    (r : CostRow) (hr : r ∈ allCost) (hid : r.meal_id = meal.id) :
    (PgPersistence.attachTotalCost allCost meal).totalCost = r.sum := by
  have hmem : r ∈ allCost.filter (fun cost => decide (meal.id = cost.meal_id)) := by
    simp [List.mem_filter, hr, hid]
  cases hf : allCost.filter (fun cost => decide (meal.id = cost.meal_id)) with
  | nil => rw [hf] at hmem; cases hmem
  | cons first rest =>
    have hfirst : first ∈ allCost.filter (fun cost => decide (meal.id = cost.meal_id)) := by
      rw [hf]; exact List.mem_cons_self _ _
    have h1 : first ∈ allCost := (List.mem_filter.mp hfirst).1
    have h2 : meal.id = first.meal_id := by simpa using (List.mem_filter.mp hfirst).2
    have heq : first = r := by
      by_contra hne
      exact hS.forall (fun _ _ hab => Ne.symm hab) h1 hr hne (by rw [← h2, hid])
    simp [PgPersistence.attachTotalCost, hf, heq]

theorem attachTotalCost_of_not_mem (allCost : List CostRow) (meal : MealRow)
    (h : ∀ r ∈ allCost, r.meal_id ≠ meal.id) :
    (PgPersistence.attachTotalCost allCost meal).totalCost = 0 := by
  have hf : allCost.filter (fun cost => decide (meal.id = cost.meal_id)) = [] := by
    rw [List.filter_eq_nil_iff]
    intro r hr
    simpa using fun hEq => h r hr hEq.symm
  simp [PgPersistence.attachTotalCost, hf]

theorem jsSort_perm {α : Type} (compare : α → α → Int) (xs : List α) :
    (jsSort compare xs).Perm xs :=
  List.perm_insertionSort _ xs

theorem jsSort_totalCost_sorted (xs : List Meal) :
    (jsSort (fun a b => a.totalCost - b.totalCost) xs).Sorted
      (fun a b => a.totalCost ≤ b.totalCost) := by
  have total : IsTotal Meal (fun a b => a.totalCost - b.totalCost ≤ 0) :=
    ⟨fun a b => by
      rcases le_total a.totalCost b.totalCost with h | h
      · left; show a.totalCost - b.totalCost ≤ 0; omega
      · right; show b.totalCost - a.totalCost ≤ 0; omega⟩
  have trans : IsTrans Meal (fun a b => a.totalCost - b.totalCost ≤ 0) :=
    ⟨fun a b c (hab : a.totalCost - b.totalCost ≤ 0) (hbc : b.totalCost - c.totalCost ≤ 0) => by
      show a.totalCost - c.totalCost ≤ 0
      omega⟩
  have h := List.sorted_insertionSort (fun (a b : Meal) => a.totalCost - b.totalCost ≤ 0) xs
  refine List.Pairwise.imp ?_ h
  intro a b hab
  have : a.totalCost - b.totalCost ≤ 0 := hab
  omega

/-- C1: for the meal rows `M`, cost rows `S` with at most one row per
`meal_id`, and `0 ≤ startIndex ≤ endIndex`, `sortedMealLists` returns the
elements at positions `[startIndex, endIndex)` of a list `P` that is a
permutation of `M` (each row annotated), ordered by non-decreasing
`totalCost`, in which a meal's `totalCost` is the sum `S` has for its id and
`0` when `S` has no row for its id. -/
theorem sortedMealLists_window_of_cost_order (M : List MealRow) (S : List CostRow)
    (startIndex endIndex : Nat)
    (hS : S.Pairwise (fun a b => a.meal_id ≠ b.meal_id)) (hle : startIndex ≤ endIndex) :
    ∃ P : List Meal,
      (P.map Meal.row).Perm M ∧
      P.Sorted (fun a b => a.totalCost ≤ b.totalCost) ∧
      (∀ m ∈ P, (∀ r ∈ S, r.meal_id = m.id → m.totalCost = r.sum) ∧
        ((∀ r ∈ S, r.meal_id ≠ m.id) → m.totalCost = 0)) ∧
      PgPersistence.sortedMealListsRows M S (JSNum.ofInt startIndex) (JSNum.ofInt endIndex) =
        (P.drop startIndex).take (endIndex - startIndex) := by
  refine ⟨jsSort (fun a b => a.totalCost - b.totalCost) (M.map (PgPersistence.attachTotalCost S)), ?_, ?_, ?_, ?_⟩
  · have h := (jsSort_perm (fun (a b : Meal) => a.totalCost - b.totalCost)
      (M.map (PgPersistence.attachTotalCost S))).map Meal.row
    have hmap : (M.map (PgPersistence.attachTotalCost S)).map Meal.row = M := by
      rw [List.map_map]
      conv_rhs => rw [← List.map_id M]
      exact List.map_congr_left (fun m _ => attachTotalCost_row S m)
    rwa [hmap] at h
  · exact jsSort_totalCost_sorted _
  · intro m hm
    have hm2 : m ∈ M.map (PgPersistence.attachTotalCost S) :=
      (jsSort_perm (fun (a b : Meal) => a.totalCost - b.totalCost) _).subset hm
    obtain ⟨row, _, rfl⟩ := List.mem_map.mp hm2
    exact ⟨fun r hr hid => attachTotalCost_of_mem S row hS r hr hid,
      fun hno => attachTotalCost_of_not_mem S row hno⟩
  · exact jsSlice_ofNat _ startIndex endIndex hle

/-- C1 on the rows of the sample store, for the window `[0, 5)`. -/
theorem sortedMealLists_window_of_cost_order_witness :
    ∃ P : List Meal,
      (P.map Meal.row).Perm sampleStore.meals ∧
      P.Sorted (fun a b => a.totalCost ≤ b.totalCost) ∧
      (∀ m ∈ P, (∀ r ∈ sampleCosts, r.meal_id = m.id → m.totalCost = r.sum) ∧
        ((∀ r ∈ sampleCosts, r.meal_id ≠ m.id) → m.totalCost = 0)) ∧
      PgPersistence.sortedMealListsRows sampleStore.meals sampleCosts
          (JSNum.ofInt (0 : Nat)) (JSNum.ofInt (5 : Nat)) =
        (P.drop 0).take (5 - 0) :=
  sortedMealLists_window_of_cost_order sampleStore.meals sampleCosts 0 5 (by decide) (by decide)

/-! ## Owner scoping -/

theorem filter_notOwned_filter {α : Type} (user : α → String) (U1 U2 : String) (h : U1 ≠ U2)
    (p : α → Bool) (hp : ∀ r, p r = true → user r = U2) (l : List α) :
    (l.filter (fun r => decide (user r ≠ U1))).filter p = l.filter p := by
  rw [List.filter_filter]
  apply List.filter_congr
  intro r _
  cases hpr : p r with
  | false => simp
  | true =>
    have : user r ≠ U1 := by rw [hp r hpr]; exact Ne.symm h
    simp [this]

theorem filter_owned_map {α : Type} (q : α → Bool) (f : α → α)
    (hf : ∀ r, q r = true → f r = r) (hq : ∀ r, q (f r) = q r) (l : List α) :
    (l.map f).filter q = l.filter q := by
  induction l with
  | nil => rfl
  | cons a t ih =>
    rw [List.map_cons, List.filter_cons, List.filter_cons, hq a, ih]
    cases hqa : q a with
    | false => simp
    | true => simp [hf a hqa]

theorem filter_owned_filter {α : Type} (q p : α → Bool)
    (h : ∀ r, q r = true → p r = true) (l : List α) :
    (l.filter p).filter q = l.filter q := by
  rw [List.filter_filter]
  apply List.filter_congr
  intro r _
  cases hqr : q r with
  | false => simp
  | true => simp [h r hqr]

theorem loadMeal_notOwnedBy (U1 U2 : String) (h : U1 ≠ U2) (s : Store) (mealId : JSNum) :
    PgPersistence.loadMeal U2 (s.notOwnedBy U1) mealId = PgPersistence.loadMeal U2 s mealId := by
  unfold PgPersistence.loadMeal Store.notOwnedBy
  cases pgInteger mealId with
  | error e => rfl
  | ok id =>
    simp only
    rw [filter_notOwned_filter MealRow.username U1 U2 h _ (by intro r hr; simp at hr; exact hr.2),
      filter_notOwned_filter IngredientRow.username U1 U2 h _
        (by intro r hr; simp at hr; exact hr.2)]

theorem loadIngredients_notOwnedBy (U1 U2 : String) (h : U1 ≠ U2) (s : Store)
    (mealId ingredientId : JSNum) :
    PgPersistence.loadIngredients U2 (s.notOwnedBy U1) mealId ingredientId =
      PgPersistence.loadIngredients U2 s mealId ingredientId := by
  unfold PgPersistence.loadIngredients Store.notOwnedBy
  cases pgInteger mealId <;> cases pgInteger ingredientId <;> try rfl
  simp only
  rw [filter_notOwned_filter IngredientRow.username U1 U2 h _
    (by intro r hr; simp at hr; exact hr.2.2)]

theorem ALL_MEALS_notOwnedBy (U1 U2 : String) (h : U1 ≠ U2) (s : Store) :
    PgPersistence.ALL_MEALS U2 (s.notOwnedBy U1) = PgPersistence.ALL_MEALS U2 s := by
  unfold PgPersistence.ALL_MEALS Store.notOwnedBy
  simp only
  rw [filter_notOwned_filter MealRow.username U1 U2 h _ (by intro r hr; simpa using hr)]

theorem MEAL_TOTALCOST_notOwnedBy (U1 U2 : String) (h : U1 ≠ U2) (s : Store) :
    PgPersistence.MEAL_TOTALCOST U2 (s.notOwnedBy U1) = PgPersistence.MEAL_TOTALCOST U2 s := by
  unfold PgPersistence.MEAL_TOTALCOST Store.notOwnedBy
  simp only
  rw [filter_notOwned_filter IngredientRow.username U1 U2 h _ (by intro r hr; simpa using hr)]

theorem sortedMealLists_notOwnedBy (U1 U2 : String) (h : U1 ≠ U2) (s : Store)
    (startIndex endIndex : JSNum) :
    PgPersistence.sortedMealLists U2 (s.notOwnedBy U1) startIndex endIndex =
      PgPersistence.sortedMealLists U2 s startIndex endIndex := by
  unfold PgPersistence.sortedMealLists
  rw [ALL_MEALS_notOwnedBy U1 U2 h, MEAL_TOTALCOST_notOwnedBy U1 U2 h]

theorem sortedIngredients_notOwnedBy (U1 U2 : String) (h : U1 ≠ U2) (s : Store)
    (mealId : Int) (pageNumber : JSVal) :
    PgPersistence.sortedIngredients U2 (s.notOwnedBy U1) mealId pageNumber =
      PgPersistence.sortedIngredients U2 s mealId pageNumber := by
  unfold PgPersistence.sortedIngredients Store.notOwnedBy
  simp only
  rw [filter_notOwned_filter IngredientRow.username U1 U2 h _
    (by intro r hr; simp at hr; exact hr.2)]

theorem numberOfMeals_notOwnedBy (U1 U2 : String) (h : U1 ≠ U2) (s : Store) :
    PgPersistence.numberOfMeals U2 (s.notOwnedBy U1) = PgPersistence.numberOfMeals U2 s := by
  unfold PgPersistence.numberOfMeals Store.notOwnedBy
  simp only
  rw [filter_notOwned_filter MealRow.username U1 U2 h _ (by intro r hr; simpa using hr)]

theorem numberOfIngredients_notOwnedBy (U1 U2 : String) (h : U1 ≠ U2) (s : Store)
    (mealId : JSNum) :
    PgPersistence.numberOfIngredients U2 (s.notOwnedBy U1) mealId =
      PgPersistence.numberOfIngredients U2 s mealId := by
  unfold PgPersistence.numberOfIngredients Store.notOwnedBy
  cases pgInteger mealId with
  | error e => rfl
  | ok id =>
    simp only
    rw [filter_notOwned_filter IngredientRow.username U1 U2 h _
      (by intro r hr; simp at hr; exact hr.2)]

theorem mealTotalCost_notOwnedBy (U1 U2 : String) (h : U1 ≠ U2) (s : Store) (mealId : JSNum) :
    PgPersistence.mealTotalCost U2 (s.notOwnedBy U1) mealId =
      PgPersistence.mealTotalCost U2 s mealId := by
  unfold PgPersistence.mealTotalCost Store.notOwnedBy
  cases pgInteger mealId with
  | error e => rfl
  | ok id =>
    simp only
    rw [filter_notOwned_filter IngredientRow.username U1 U2 h _
      (by intro r hr; simp at hr; exact hr.2)]

theorem setMealName_ownedBy (U1 U2 : String) (h : U1 ≠ U2) (s : Store) (mealId : JSNum)
    (name : String) :
    (PgPersistence.setMealName U2 s mealId name).2.ownedBy U1 = s.ownedBy U1 := by
  unfold PgPersistence.setMealName
  cases pgInteger mealId with
  | error e => rfl
  | ok id =>
    simp only [Store.ownedBy]
    congr 1
    apply filter_owned_map
    · intro r hr
      have hu : r.username = U1 := by simpa using hr
      have : ¬ r.username = U2 := by rw [hu]; exact h
      simp [this]
    · intro r
      by_cases hit : r.id = id ∧ r.username = U2 <;> simp [hit]

theorem setIngredientName_ownedBy (U1 U2 : String) (h : U1 ≠ U2) (s : Store) (name : String)
    (ingredientId mealId : JSNum) :
    (PgPersistence.setIngredientName U2 s name ingredientId mealId).2.ownedBy U1 =
      s.ownedBy U1 := by
  unfold PgPersistence.setIngredientName
  cases pgInteger ingredientId <;> cases pgInteger mealId <;> try rfl
  rename_i iid mid
  simp only [Store.ownedBy]
  congr 1
  apply filter_owned_map
  · intro r hr
    have hu : r.username = U1 := by simpa using hr
    have : ¬ r.username = U2 := by rw [hu]; exact h
    simp [this]
  · intro r
    by_cases hit : r.id = iid ∧ r.meal_id = mid ∧ r.username = U2 <;> simp [hit]

theorem setIngredientCost_ownedBy (U1 U2 : String) (h : U1 ≠ U2) (s : Store) (cost : String)
    (ingredientId mealId : JSNum) :
    (PgPersistence.setIngredientCost U2 s cost ingredientId mealId).2.ownedBy U1 =
      s.ownedBy U1 := by
  unfold PgPersistence.setIngredientCost
  cases pgCost cost <;> cases pgInteger ingredientId <;> cases pgInteger mealId <;> try rfl
  rename_i c iid mid
  simp only [Store.ownedBy]
  congr 1
  apply filter_owned_map
  · intro r hr
    have hu : r.username = U1 := by simpa using hr
    have : ¬ r.username = U2 := by rw [hu]; exact h
    simp [this]
  · intro r
    by_cases hit : r.id = iid ∧ r.meal_id = mid ∧ r.username = U2 <;> simp [hit]

theorem deleteMeal_ownedBy (U1 U2 : String) (h : U1 ≠ U2) (s : Store) (mealId : JSNum) :
    (PgPersistence.deleteMeal false U2 s mealId).2.ownedBy U1 = s.ownedBy U1 := by
  unfold PgPersistence.deleteMeal
  cases pgInteger mealId with
  | error e => rfl
  | ok id =>
    simp only [Store.ownedBy, Bool.false_eq_true, if_false]
    congr 1
    apply filter_owned_filter
    intro r hr
    have hu : r.username = U1 := by simpa using hr
    have : ¬ r.username = U2 := by rw [hu]; exact h
    simp [this]

theorem deleteIngredient_ownedBy (U1 U2 : String) (h : U1 ≠ U2) (s : Store)
    (mealId ingredientId : JSNum) :
    (PgPersistence.deleteIngredient U2 s mealId ingredientId).2.ownedBy U1 = s.ownedBy U1 := by
  unfold PgPersistence.deleteIngredient
  cases pgInteger mealId <;> cases pgInteger ingredientId <;> try rfl
  simp only [Store.ownedBy]
  congr 1
  apply filter_owned_filter
  intro r hr
  have hu : r.username = U1 := by simpa using hr
  have : ¬ r.username = U2 := by rw [hu]; exact h
  simp [this]

/-- Owner scoping of the operations whose statements test nothing but ids and
the owner: for distinct user names `U1` and `U2`, the reads of a `U2`-scoped
`PgPersistence` that do not match a pattern give the same result on any two
stores that differ only in rows owned by `U1`, and its updates and deletes
(the delete of a meal without a cascade of the store) leave the rows owned by
`U1` as they were. -/
theorem owner_scoping_of_id_statements (U1 U2 : String) (hne : U1 ≠ U2) (s t : Store)
    (hsame : s.notOwnedBy U1 = t.notOwnedBy U1) :
    (∀ mealId, PgPersistence.loadMeal U2 s mealId = PgPersistence.loadMeal U2 t mealId) ∧
    (∀ mealId ingredientId, PgPersistence.loadIngredients U2 s mealId ingredientId =
      PgPersistence.loadIngredients U2 t mealId ingredientId) ∧
    (∀ startIndex endIndex, PgPersistence.sortedMealLists U2 s startIndex endIndex =
      PgPersistence.sortedMealLists U2 t startIndex endIndex) ∧
    (∀ mealId pageNumber, PgPersistence.sortedIngredients U2 s mealId pageNumber =
      PgPersistence.sortedIngredients U2 t mealId pageNumber) ∧
    PgPersistence.numberOfMeals U2 s = PgPersistence.numberOfMeals U2 t ∧
    (∀ mealId, PgPersistence.numberOfIngredients U2 s mealId =
      PgPersistence.numberOfIngredients U2 t mealId) ∧
    (∀ mealId, PgPersistence.mealTotalCost U2 s mealId =
      PgPersistence.mealTotalCost U2 t mealId) ∧
    (∀ mealId name, (PgPersistence.setMealName U2 s mealId name).2.ownedBy U1 = s.ownedBy U1) ∧
    (∀ name ingredientId mealId,
      (PgPersistence.setIngredientName U2 s name ingredientId mealId).2.ownedBy U1 =
        s.ownedBy U1) ∧
    (∀ cost ingredientId mealId,
      (PgPersistence.setIngredientCost U2 s cost ingredientId mealId).2.ownedBy U1 =
        s.ownedBy U1) ∧
    (∀ mealId, (PgPersistence.deleteMeal false U2 s mealId).2.ownedBy U1 = s.ownedBy U1) ∧
    (∀ mealId ingredientId,
      (PgPersistence.deleteIngredient U2 s mealId ingredientId).2.ownedBy U1 = s.ownedBy U1) := by
  refine ⟨?_, ?_, ?_, ?_, ?_, ?_, ?_, ?_, ?_, ?_, ?_, ?_⟩
  · intro mealId
    rw [← loadMeal_notOwnedBy U1 U2 hne s, ← loadMeal_notOwnedBy U1 U2 hne t, hsame]
  · intro mealId ingredientId
    rw [← loadIngredients_notOwnedBy U1 U2 hne s, ← loadIngredients_notOwnedBy U1 U2 hne t, hsame]
  · intro startIndex endIndex
    rw [← sortedMealLists_notOwnedBy U1 U2 hne s, ← sortedMealLists_notOwnedBy U1 U2 hne t, hsame]
  · intro mealId pageNumber
    rw [← sortedIngredients_notOwnedBy U1 U2 hne s, ← sortedIngredients_notOwnedBy U1 U2 hne t,
      hsame]
  · rw [← numberOfMeals_notOwnedBy U1 U2 hne s, ← numberOfMeals_notOwnedBy U1 U2 hne t, hsame]
  · intro mealId
    rw [← numberOfIngredients_notOwnedBy U1 U2 hne s,
      ← numberOfIngredients_notOwnedBy U1 U2 hne t, hsame]
  · intro mealId
    rw [← mealTotalCost_notOwnedBy U1 U2 hne s, ← mealTotalCost_notOwnedBy U1 U2 hne t, hsame]
  · exact fun mealId name => setMealName_ownedBy U1 U2 hne s mealId name
  · exact fun name ingredientId mealId =>
      setIngredientName_ownedBy U1 U2 hne s name ingredientId mealId
  · exact fun cost ingredientId mealId =>
      setIngredientCost_ownedBy U1 U2 hne s cost ingredientId mealId
  · exact fun mealId => deleteMeal_ownedBy U1 U2 hne s mealId
  · exact fun mealId ingredientId => deleteIngredient_ownedBy U1 U2 hne s mealId ingredientId

/-- C2, on the failing input: the sample store and its part owned by `u`
differ only in rows of `v`, and the two pattern reads of a `u`-scoped
`PgPersistence` tell them apart. The name `c\` (a trailing backslash) is
matched against every meal name of the table before the owner is tested:
with the meal `Curry` of `v` in the table `existsMealName` throws, without it
it resolves to `false`; `existIngredient` does the same for `r\` and the
ingredient `Rice` of `v`. -/
theorem pattern_reads_depend_on_other_owner :
    "v" ≠ "u" ∧
    (sampleStore.ownedBy "u").notOwnedBy "v" = sampleStore.notOwnedBy "v" ∧
    PgPersistence.existsMealName "u" (sampleStore.ownedBy "u") "c\x5c" = Except.ok false ∧
    PgPersistence.existsMealName "u" sampleStore "c\x5c" =
      Except.error "LIKE pattern must not end with escape character" ∧
    PgPersistence.existIngredient "u" (sampleStore.ownedBy "u") "r\x5c" (JSNum.ofInt 1) =
      Except.ok false ∧
    PgPersistence.existIngredient "u" sampleStore "r\x5c" (JSNum.ofInt 1) =
      Except.error "LIKE pattern must not end with escape character" := by
  decide

/-- With a cascade declared in the schema, a delete also crosses owners: once
`u` has an ingredient row on meal 3 of `v`, `v` deleting meal 3 removes that
row of `u`. Without the cascade the row stays. -/
theorem deleteMeal_cascade_crosses_owners :
    (PgPersistence.deleteMeal true "v" foreignIngredientStore (JSNum.ofInt 3)).2.ownedBy "u" =
      sampleStore.ownedBy "u" ∧
    foreignIngredientStore.ownedBy "u" ≠ sampleStore.ownedBy "u" ∧
    (PgPersistence.deleteMeal false "v" foreignIngredientStore (JSNum.ofInt 3)).2.ownedBy "u" =
      foreignIngredientStore.ownedBy "u" := by
  decide

/-! ## Error handling of the two `INSERT` methods -/

theorem beginsWith_iff (needle hay : List Char) :
    beginsWith needle hay = true ↔ ∃ post, hay = needle ++ post := by
  induction needle generalizing hay with
  | nil => simp [beginsWith]
  | cons a as ih =>
    cases hay with
    | nil => simp [beginsWith]
    | cons b bs =>
      simp only [beginsWith, Bool.and_eq_true, decide_eq_true_eq, ih, List.cons_append,
        List.cons.injEq]
      constructor
      · rintro ⟨rfl, post, rfl⟩
        exact ⟨post, rfl, rfl⟩
      · rintro ⟨post, rfl, rfl⟩
        exact ⟨rfl, post, rfl⟩

theorem occursIn_iff (needle hay : List Char) :
    occursIn needle hay = true ↔ ∃ pre post, hay = pre ++ needle ++ post := by
  induction hay with
  | nil =>
    simp only [occursIn, beginsWith_iff]
    constructor
    · rintro ⟨post, h⟩
      exact ⟨[], post, by simpa using h⟩
    · rintro ⟨pre, post, h⟩
      have h2 := congrArg List.length h
      simp at h2
      refine ⟨[], ?_⟩
      have : needle = [] := List.length_eq_zero.mp (by omega)
      simp [this]
  | cons c t ih =>
    simp only [occursIn, Bool.or_eq_true, beginsWith_iff, ih]
    constructor
    · rintro (⟨post, h⟩ | ⟨pre, post, h⟩)
      · exact ⟨[], post, by simpa using h⟩
      · exact ⟨c :: pre, post, by simp [h]⟩
    · rintro ⟨pre, post, h⟩
      cases pre with
      | nil => exact Or.inl ⟨post, by simpa using h⟩
      | cons d pre =>
        simp only [List.cons_append, List.cons.injEq] at h
        exact Or.inr ⟨pre, post, h.2⟩

/-- C3, on the failing input: when the store rejects the insert of `createMeal`
with a unique-constraint violation, `createMeal` does not resolve to `false`,
it rejects with that error. -/
theorem createMeal_throws_on_duplicate :
    PgPersistence.isUniqueConstraintViolation duplicateKeyError = true ∧
    PgPersistence.createMeal rejectDuplicate "u" "Pasta" = Except.error duplicateKeyError ∧
    PgPersistence.createMeal rejectDuplicate "u" "Pasta" ≠ Except.ok false := by
  decide

/-- C4: `createIngredient` resolves to `false` when the insert fails with an
error whose text contains `duplicate key value violates unique constraint`,
rejects with the same error when the insert fails with any other error, and
resolves to `rowCount > 0` when the insert does not fail. -/
theorem createIngredient_outcomes (dbQuery : DbQuery) (username : String) (meal_id : JSNum)
    (name : String) (cost : JSNum) :
    (∀ error, dbQuery PgPersistence.CREATE_INGREDIENTS
        [JSVal.str name, JSVal.num cost, JSVal.num meal_id, JSVal.str username] =
          Except.error error →
      (∃ pre post, error.toList =
        pre ++ "duplicate key value violates unique constraint".toList ++ post) →
      PgPersistence.createIngredient dbQuery username meal_id name cost = Except.ok false) ∧
    (∀ error, dbQuery PgPersistence.CREATE_INGREDIENTS
        [JSVal.str name, JSVal.num cost, JSVal.num meal_id, JSVal.str username] =
          Except.error error →
      (¬ ∃ pre post, error.toList =
        pre ++ "duplicate key value violates unique constraint".toList ++ post) →
      PgPersistence.createIngredient dbQuery username meal_id name cost = Except.error error) ∧
    (∀ result, dbQuery PgPersistence.CREATE_INGREDIENTS
        [JSVal.str name, JSVal.num cost, JSVal.num meal_id, JSVal.str username] =
          Except.ok result →
      PgPersistence.createIngredient dbQuery username meal_id name cost =
        Except.ok (decide (result.rowCount > 0))) := by
  refine ⟨?_, ?_, ?_⟩
  · intro error hq hdup
    have h : PgPersistence.isUniqueConstraintViolation error = true :=
      (occursIn_iff _ _).mpr hdup
    simp [PgPersistence.createIngredient, hq, h]
  · intro error hq hdup
    have h : PgPersistence.isUniqueConstraintViolation error = false := by
      cases hv : PgPersistence.isUniqueConstraintViolation error with
      | false => rfl
      | true => exact absurd ((occursIn_iff _ _).mp hv) hdup
    simp [PgPersistence.createIngredient, hq, h]
  · intro result hq
    simp [PgPersistence.createIngredient, hq]

/-- C4 at a concrete store answer: a duplicate-key error becomes `false`. -/
theorem createIngredient_outcomes_witness :
    PgPersistence.createIngredient rejectDuplicate "u" (JSNum.ofInt 1) "Salt" (JSNum.fin 50 2) =
      Except.ok false :=
  (createIngredient_outcomes rejectDuplicate "u" (JSNum.ofInt 1) "Salt" (JSNum.fin 50 2)).1
    duplicateKeyError rfl ⟨"error: ".toList, [], by decide⟩

/-- C5, on the failing input: user `u` has no meal named `%`, in any letter
case, and `existsMealName("%")` resolves to `true`; likewise no ingredient of
meal 1 is named `_____` or `fl%`, and `existIngredient` resolves to `true`
for both. -/
theorem existsMealName_matches_wildcards :
    (∀ r ∈ sampleStore.meals, ¬ (r.username = "u" ∧ lower r.name = lower "%")) ∧
    PgPersistence.existsMealName "u" sampleStore "%" = Except.ok true ∧
    (∀ r ∈ sampleStore.ingredients,
      ¬ (r.meal_id = 1 ∧ r.username = "u" ∧ lower r.name = lower "_____")) ∧
    PgPersistence.existIngredient "u" sampleStore "_____" (JSNum.ofInt 1) = Except.ok true ∧
    PgPersistence.existIngredient "u" sampleStore "fl%" (JSNum.ofInt 1) = Except.ok true := by
  decide

/-! ## Pagination of the meal list -/

theorem ceilOfQuotient_eq_ceil (n : Nat) : ceilOfQuotient n LIMIT = ⌈(n : ℚ) / 5⌉₊ := by
  have hdef : ceilOfQuotient n LIMIT = (n + 4) / 5 := rfl
  rw [hdef]
  apply le_antisymm
  · have h1 : (n : ℚ) / 5 ≤ (⌈(n : ℚ) / 5⌉₊ : ℚ) := Nat.le_ceil _
    have h2 : (n : ℚ) ≤ ((5 * ⌈(n : ℚ) / 5⌉₊ : ℕ) : ℚ) := by
      push_cast
      linarith
    have h3 : n ≤ 5 * ⌈(n : ℚ) / 5⌉₊ := by exact_mod_cast h2
    omega
  · apply Nat.ceil_le.mpr
    have h1 : n ≤ 5 * ((n + 4) / 5) := by omega
    have h2 : (n : ℚ) ≤ 5 * (((n + 4) / 5 : ℕ) : ℚ) := by exact_mod_cast h1
    linarith

theorem pow_ten_pos (k : Nat) : (0 : ℚ) < (10 : ℚ) ^ k := by positivity

theorem value_lt_iff (m : Int) (k : Nat) (b : Nat) :
    (b : ℚ) < JSNum.value m k ↔ (b : Int) * 10 ^ k < m := by
  unfold JSNum.value
  rw [lt_div_iff₀ (pow_ten_pos k)]
  constructor
  · intro h
    exact_mod_cast h
  · intro h
    exact_mod_cast h

theorem value_pos_iff (m : Int) (k : Nat) : 0 < JSNum.value m k ↔ 0 < m := by
  have h := value_lt_iff m k 0
  simpa using h

theorem gt_ofNat_iff (n : JSNum) (b : Nat) :
    JSNum.gt n (JSNum.ofInt (b : Int)) = true ↔ n.Exceeds b := by
  cases n with
  | nan => simp [JSNum.gt, JSNum.lt, JSNum.ofInt, JSNum.Exceeds]
  | posInf => simp [JSNum.gt, JSNum.lt, JSNum.ofInt, JSNum.Exceeds]
  | negInf => simp [JSNum.gt, JSNum.lt, JSNum.ofInt, JSNum.Exceeds]
  | fin m k =>
    simp only [JSNum.gt, JSNum.lt, JSNum.ofInt, JSNum.Exceeds, decide_eq_true_eq, value_lt_iff]
    simp

theorem not_positive_iff (n : JSNum) :
    (!n.truthy || JSNum.le n (JSNum.ofInt 0)) = true ↔ ¬ n.IsPositive := by
  cases n with
  | nan => simp [JSNum.truthy, JSNum.IsPositive]
  | posInf => simp [JSNum.truthy, JSNum.le, JSNum.lt, JSNum.ofInt, JSNum.IsPositive]
  | negInf => simp [JSNum.truthy, JSNum.le, JSNum.lt, JSNum.ofInt, JSNum.IsPositive]
  | fin m k =>
    simp only [JSNum.truthy, JSNum.le, JSNum.lt, JSNum.ofInt, JSNum.IsPositive, value_pos_iff]
    simp
    omega

/-- The decision of `GET /meals`, read off its chain of `if`s. -/
theorem getMeals_eq (username : String) (store : Store) (queryPage : JSVal) :
    getMeals username store queryPage =
      if (decide (ceilOfQuotient (store.meals.filter
            (fun r => decide (r.username = username))).length LIMIT > 0) &&
          JSNum.gt (JSVal.or queryPage (JSVal.num (JSNum.ofInt 1))).toNumber
            (JSNum.ofInt (ceilOfQuotient (store.meals.filter
              (fun r => decide (r.username = username))).length LIMIT))) ||
        ((!(JSVal.or queryPage (JSVal.num (JSNum.ofInt 1))).toNumber.truthy ||
          JSNum.le (JSVal.or queryPage (JSVal.num (JSNum.ofInt 1))).toNumber (JSNum.ofInt 0)) ||
        (decide ((store.meals.filter (fun r => decide (r.username = username))).length = 0) &&
          JSNum.gt (JSVal.or queryPage (JSVal.num (JSNum.ofInt 1))).toNumber (JSNum.ofInt 1)))
      then
        Except.ok
          { flash := [PAGE_NOT_FOUND],
            meals := PgPersistence.sortedMealListsRows (PgPersistence.ALL_MEALS username store)
              (PgPersistence.MEAL_TOTALCOST username store) (JSNum.ofInt 0) (JSNum.ofInt LIMIT),
            totalPage := ceilOfQuotient (store.meals.filter
              (fun r => decide (r.username = username))).length LIMIT,
            page := 1 }
      else
        Except.ok
          { flash := [],
            meals := PgPersistence.sortedMealListsRows (PgPersistence.ALL_MEALS username store)
              (PgPersistence.MEAL_TOTALCOST username store)
              (JSNum.mul (JSNum.sub (JSVal.or queryPage (JSVal.num (JSNum.ofInt 1))).toNumber
                (JSNum.ofInt 1)) (JSNum.ofInt LIMIT))
              (JSNum.mul (JSVal.or queryPage (JSVal.num (JSNum.ofInt 1))).toNumber
                (JSNum.ofInt LIMIT)),
            totalPage := ceilOfQuotient (store.meals.filter
              (fun r => decide (r.username = username))).length LIMIT,
            page := 1 } := by
  simp only [getMeals, PgPersistence.numberOfMeals, PgPersistence.sortedMealLists,
    rerenderFirstPage]
  generalize (decide (ceilOfQuotient _ LIMIT > 0) && JSNum.gt _ _) = b1
  generalize (!JSNum.truthy _ || JSNum.le _ _) = b2
  generalize (decide (List.length _ = 0) && JSNum.gt _ _) = b3
  cases b1 <;> cases b2 <;> cases b3 <;> rfl

theorem pageNotFound_iff (totalRows : Nat) (n : JSNum) :
    ((decide (ceilOfQuotient totalRows LIMIT > 0) &&
        JSNum.gt n (JSNum.ofInt (ceilOfQuotient totalRows LIMIT))) ||
      ((!n.truthy || JSNum.le n (JSNum.ofInt 0)) ||
        (decide (totalRows = 0) && JSNum.gt n (JSNum.ofInt 1)))) = true ↔
      PageNotFound totalRows n := by
  have hA : JSNum.gt n (JSNum.ofInt (ceilOfQuotient totalRows LIMIT)) = true ↔
      n.Exceeds ⌈(totalRows : ℚ) / 5⌉₊ := by
    rw [gt_ofNat_iff, ceilOfQuotient_eq_ceil]
  have hB := not_positive_iff n
  have hC : JSNum.gt n (JSNum.ofInt 1) = true ↔ n.Exceeds 1 := gt_ofNat_iff n 1
  have hD : ceilOfQuotient totalRows LIMIT > 0 ↔ 0 < ⌈(totalRows : ℚ) / 5⌉₊ := by
    rw [ceilOfQuotient_eq_ceil]
  rw [Bool.or_eq_true, Bool.or_eq_true, Bool.and_eq_true, Bool.and_eq_true, decide_eq_true_eq,
    decide_eq_true_eq, hA, hB, hC, hD]
  unfold PageNotFound
  tauto

theorem getMeals_of_pageNotFound (username : String) (store : Store) (queryPage : JSVal)
    (h : PageNotFound (mealCount username store) (requestedPage queryPage)) :
    getMeals username store queryPage =
      Except.ok
        { flash := [PAGE_NOT_FOUND],
          meals := mealWindow username store (JSNum.ofInt 0) (JSNum.ofInt 5),
          totalPage := ceilOfQuotient (mealCount username store) LIMIT,
          page := 1 } := by
  rw [getMeals_eq]
  exact if_pos ((pageNotFound_iff (mealCount username store) (requestedPage queryPage)).mpr h)

theorem getMeals_of_not_pageNotFound (username : String) (store : Store) (queryPage : JSVal)
    (h : ¬ PageNotFound (mealCount username store) (requestedPage queryPage)) :
    getMeals username store queryPage =
      Except.ok
        { flash := [],
          meals := mealWindow username store
            (JSNum.mul (JSNum.sub (requestedPage queryPage) (JSNum.ofInt 1)) (JSNum.ofInt 5))
            (JSNum.mul (requestedPage queryPage) (JSNum.ofInt 5)),
          totalPage := ceilOfQuotient (mealCount username store) LIMIT,
          page := 1 } := by
  rw [getMeals_eq]
  exact if_neg (fun hc =>
    h ((pageNotFound_iff (mealCount username store) (requestedPage queryPage)).mp hc))

theorem requestedPage_str (page : String) (hpage : page ≠ "") :
    requestedPage (JSVal.str page) = stringToNumber page := by
  have h : page.toList ≠ [] := by
    intro hnil
    apply hpage
    cases page with
    | mk data =>
      have : data = [] := hnil
      rw [this]
  have ht : (JSVal.str page).truthy = true := by
    simp only [JSVal.truthy, decide_eq_true_eq]
    exact h
  simp only [requestedPage, JSVal.or, ht, if_true, JSVal.toNumber]

theorem sortedMealLists_ok (username : String) (store : Store) (startIndex endIndex : JSNum) :
    PgPersistence.sortedMealLists username store startIndex endIndex =
      Except.ok (mealWindow username store startIndex endIndex) := rfl

/-- C6 as written fails: without any meal, page 1 is a number greater than
`ceil(0 / 5) = 0`, and `GET /meals` renders it without a flash error. -/
theorem getMeals_page_one_without_meals :
    (stringToNumber "1").Exceeds ⌈((mealCount "u" emptyStore : ℕ) : ℚ) / 5⌉₊ ∧
    getMeals "u" emptyStore (JSVal.str "1") =
      Except.ok { flash := [], meals := [], totalPage := 0, page := 1 } := by
  refine ⟨?_, by decide⟩
  have h1 : stringToNumber "1" = JSNum.fin 1 0 := by decide
  have h2 : mealCount "u" emptyStore = 0 := rfl
  rw [h1, h2]
  simp [JSNum.Exceeds, JSNum.value]

/-- C6 (amended): when the page parameter of `GET /meals` is a non-empty query
string that reads as zero, as a negative number, as a number greater than
`ceil(total / 5)` while the user has a meal, or as a number greater than 1
while the user has none, the handler does not throw: it flashes the error
`The page not found.` and renders the meals `sortedMealLists(0, 5)` resolves
to. -/
theorem getMeals_bad_page_renders_first_page (username : String) (store : Store)
    (page : String) (hpage : page ≠ "")
    (hbad : (stringToNumber page).IsZero ∨ (stringToNumber page).IsNegative ∨
      (0 < mealCount username store ∧
        (stringToNumber page).Exceeds ⌈(mealCount username store : ℚ) / 5⌉₊) ∨
      (mealCount username store = 0 ∧ (stringToNumber page).Exceeds 1)) :
    ∃ meals,
      PgPersistence.sortedMealLists username store (JSNum.ofInt 0) (JSNum.ofInt 5) =
        Except.ok meals ∧
      getMeals username store (JSVal.str page) =
        Except.ok
          { flash := [("error", "The page not found.")],
            meals := meals,
            totalPage := ceilOfQuotient (mealCount username store) LIMIT,
            page := 1 } := by
  refine ⟨mealWindow username store (JSNum.ofInt 0) (JSNum.ofInt 5), sortedMealLists_ok _ _ _ _, ?_⟩
  apply getMeals_of_pageNotFound
  rw [requestedPage_str page hpage]
  rcases hbad with h | h | ⟨hpos, h⟩ | ⟨hzero, h⟩
  · left
    cases hn : stringToNumber page with
    | fin m k =>
      rw [hn] at h
      have h0 : JSNum.value m k = 0 := h
      show ¬ (0 < JSNum.value m k)
      rw [h0]
      exact lt_irrefl 0
    | nan => exact fun hc => hc
    | posInf => rw [hn] at h; exact absurd h (fun hc => hc)
    | negInf => exact fun hc => hc
  · left
    cases hn : stringToNumber page with
    | fin m k =>
      rw [hn] at h
      have h0 : JSNum.value m k < 0 := h
      show ¬ (0 < JSNum.value m k)
      exact not_lt.mpr (le_of_lt h0)
    | nan => exact fun hc => hc
    | posInf => rw [hn] at h; exact absurd h (fun hc => hc)
    | negInf => exact fun hc => hc
  · right
    left
    refine ⟨Nat.ceil_pos.mpr ?_, h⟩
    have : (0 : ℚ) < (mealCount username store : ℚ) := by exact_mod_cast hpos
    positivity
  · right
    right
    exact ⟨hzero, h⟩

/-- C6 (amended) at page `0` of the sample store. -/
theorem getMeals_bad_page_renders_first_page_witness :
    ∃ meals,
      PgPersistence.sortedMealLists "u" sampleStore (JSNum.ofInt 0) (JSNum.ofInt 5) =
        Except.ok meals ∧
      getMeals "u" sampleStore (JSVal.str "0") =
        Except.ok
          { flash := [("error", "The page not found.")],
            meals := meals,
            totalPage := ceilOfQuotient (mealCount "u" sampleStore) LIMIT,
            page := 1 } :=
  getMeals_bad_page_renders_first_page "u" sampleStore "0" (by decide)
    (Or.inl (show JSNum.value 0 0 = 0 by simp [JSNum.value]))

/-- C7 as written fails: `1.5` is not a positive integer, and with six meals
`GET /meals?page=1.5` takes no not-found branch: it renders the rows
`slice(2.5, 7.5)` keeps, without a flash error. -/
theorem getMeals_fractional_page_is_rendered :
    ¬ (stringToNumber "1.5").IsPositiveInteger ∧
    getMeals "u" sixMeals (JSVal.str "1.5") =
      Except.ok
        { flash := [],
          meals := [
            { id := 3, name := "c", username := "u", totalCost := 0 },
            { id := 4, name := "d", username := "u", totalCost := 0 },
            { id := 5, name := "e", username := "u", totalCost := 0 },
            { id := 6, name := "f", username := "u", totalCost := 0 }],
          totalPage := 2,
          page := 1 } := by
  refine ⟨?_, by decide⟩
  have h1 : stringToNumber "1.5" = JSNum.fin 15 1 := by decide
  rw [h1]
  rintro ⟨z, _, hz⟩
  have h2 : (15 : ℚ) = 10 * (z : ℚ) := by
    have h3 : (15 : ℚ) / 10 = (z : ℚ) := by simpa [JSNum.value] using hz
    linarith
  have h4 : (15 : ℕ) = 10 * z := by exact_mod_cast h2
  omega

/-- C7 (amended): with `n` the number read from `req.query.page || 1` and
`total` the number of the user's meals, `GET /meals` takes its not-found
branch (flash error, first page) if and only if `n` is not a positive number
(`NaN`, zero or negative), or exceeds `ceil(total / 5)` while that is positive,
or `total` is zero while `n` exceeds 1; in every other case it renders
`sortedMealLists((n - 1) * 5, n * 5)` without a flash error. -/
theorem getMeals_page_policy (username : String) (store : Store) (queryPage : JSVal) :
    (PageNotFound (mealCount username store) (requestedPage queryPage) ∧
      getMeals username store queryPage =
        Except.ok
          { flash := [("error", "The page not found.")],
            meals := mealWindow username store (JSNum.ofInt 0) (JSNum.ofInt 5),
            totalPage := ceilOfQuotient (mealCount username store) LIMIT,
            page := 1 }) ∨
    (¬ PageNotFound (mealCount username store) (requestedPage queryPage) ∧
      getMeals username store queryPage =
        Except.ok
          { flash := [],
            meals := mealWindow username store
              (JSNum.mul (JSNum.sub (requestedPage queryPage) (JSNum.ofInt 1)) (JSNum.ofInt 5))
              (JSNum.mul (requestedPage queryPage) (JSNum.ofInt 5)),
            totalPage := ceilOfQuotient (mealCount username store) LIMIT,
            page := 1 }) := by
  by_cases h : PageNotFound (mealCount username store) (requestedPage queryPage)
  · exact Or.inl ⟨h, getMeals_of_pageNotFound username store queryPage h⟩
  · exact Or.inr ⟨h, getMeals_of_not_pageNotFound username store queryPage h⟩

/-! ## Reading and computing in doubles -/

set_option exponentiation.threshold 5000 in
/-- Values of `StringToNumber` and of the arithmetic, at inputs whose doubles
are known: `0.1`, `0.01`, `1.2`, the integers next to `2 ^ 53`, the halfway
point below the least positive double (to zero, the even neighbour) and the
decimal just above it, overflow to `Infinity`, `0.1 + 0.2`,
`(1.2 - 1) * 5` and `0.6 * 5`. -/
theorem doubles_at_known_inputs :
    stringToNumber "0.1" =
      JSNum.fin 10000000000000000555111512312578270211815834045410156250 56 ∧
    stringToNumber "0.01" =
      JSNum.fin 1000000000000000020816681711721685132943093776702880859375 59 ∧
    stringToNumber "1.2" = JSNum.fin 11999999999999999555910790149937383830547332763671875 52 ∧
    stringToNumber "1.5" = JSNum.fin 15 1 ∧
    stringToNumber "9007199254740993" = JSNum.fin 9007199254740992 0 ∧
    stringToNumber "9007199254740995" = JSNum.fin 9007199254740996 0 ∧
    stringToNumber "2.4703282292062327e-324" = JSNum.fin 0 1074 ∧
    stringToNumber "2.4703282292062328e-324" = JSNum.fin ((5 ^ 1074 : Nat) : Int) 1074 ∧
    stringToNumber "1.7976931348623159e308" = JSNum.posInf ∧
    stringToNumber "-1e400" = JSNum.negInf ∧
    JSNum.add (stringToNumber "0.1") (stringToNumber "0.2") =
      JSNum.fin 300000000000000044408920985006261616945266723632812500 54 ∧
    JSNum.mul (JSNum.sub (stringToNumber "1.2") (JSNum.ofInt 1)) (JSNum.ofInt 5) =
      JSNum.fin 9999999999999997779553950749686919152736663818359375 52 ∧
    JSNum.mul (stringToNumber "0.6") (JSNum.ofInt 5) =
      JSNum.fin 3000000000000000000000000000000000000000000000000000 51 := by
  repeat' apply And.intro
  all_goals decide

set_option exponentiation.threshold 5000 in
/-- The page number is read as a double: `1e-400` reads as zero and is not
found; `1.0000000000000000000001` reads as 1 and is rendered; for `1.2` the
start index is `(1.2 - 1) * 5 = 0.9999999999999998` and the end index `6`, so
`slice(0, 6)` renders six meals; an integer beyond `2 ^ 53` is rounded and a
number from `2 ^ 1024` on is `Infinity`. -/
theorem getMeals_reads_the_page_as_a_double :
    (getMeals "u" sampleStore (JSVal.str "1e-400")).map (fun r => r.flash) =
      Except.ok [("error", "The page not found.")] ∧
    (getMeals "u" sampleStore (JSVal.str "1.0000000000000000000001")).map (fun r => r.flash) =
      Except.ok [] ∧
    (getMeals "u" sixMeals (JSVal.str "1.2")).map (fun r => r.meals.map (fun m => m.name)) =
      Except.ok ["a", "b", "c", "d", "e", "f"] ∧
    stringToNumber "9007199254740993" = JSNum.fin 9007199254740992 0 ∧
    stringToNumber "1e400" = JSNum.posInf := by
  repeat' apply And.intro
  all_goals decide

/-! ## The two list routes compared -/

/-- C8, on the failing input: for page `-1` and the same number of rows (two
meals of `u`, two ingredients of meal 1), `GET /meals` takes its not-found
branch, while `GET /meals/1` takes none: it calls `sortedIngredients` with
page `-1`, whose negative `OFFSET` the store rejects, and the handler throws. -/
theorem getMeal_negative_page_not_rejected :
    mealCount "u" sampleStore = 2 ∧
    PgPersistence.numberOfIngredients "u" sampleStore (stringToNumber "1") = Except.ok 2 ∧
    getMeals "u" sampleStore (JSVal.str "-1") =
      Except.ok
        { flash := [("error", "The page not found.")],
          meals := [
            { id := 2, name := "Banana bread", username := "u", totalCost := 100 },
            { id := 1, name := "Apple pie", username := "u", totalCost := 500 }],
          totalPage := 1,
          page := 1 } ∧
    PgPersistence.sortedIngredients "u" sampleStore 1 (JSVal.num (requestedPage (JSVal.str "-1"))) =
      Except.error "OFFSET must not be negative" ∧
    getMeal "u" sampleStore "1" (JSVal.str "-1") = Except.error "OFFSET must not be negative" ∧
    getMeal "u" sampleStore "1" (JSVal.str "-1") ≠ Except.ok MealReply.pageNotFound := by
  decide

/-! ## Cost validation -/

/-- The boundary inputs of C9 behave as the claim says in the add-ingredient
handler: `0.00`, `1000.00` and `abc` are answered with a flash error, `0.01`
and `999.99` reach `createIngredient`. -/
theorem postIngredient_boundary_costs :
    postIngredient acceptOne "u" sampleStore "1" "Salt" "0.00" =
      Except.ok (FormReply.rerender "new-ingredient"
        [("error", "The cost should be between $0.01 - $999.99")]) ∧
    postIngredient acceptOne "u" sampleStore "1" "Salt" "1000.00" =
      Except.ok (FormReply.rerender "new-ingredient"
        [("error", "The cost should be between $0.01 - $999.99")]) ∧
    postIngredient acceptOne "u" sampleStore "1" "Salt" "abc" =
      Except.ok (FormReply.rerender "new-ingredient"
        [("error", "Ingredient cost must be positive number with two digit decimal")]) ∧
    postIngredient acceptOne "u" sampleStore "1" "Salt" "0.01" =
      Except.ok (FormReply.redirect "/meals/1" [("success", "The ingredient has been added.")]) ∧
    postIngredient acceptOne "u" sampleStore "1" "Salt" "999.99" =
      Except.ok (FormReply.redirect "/meals/1" [("success", "The ingredient has been added.")]) := by
  decide

/-- C9, on the failing input: the cost `$0.00` passes `isCurrency`, reads as
`NaN`, and so passes both comparisons with `0.01` and `999.99`. The
add-ingredient handler flashes no error and answers with whatever
`createIngredient` does with the cost `NaN`; the edit-cost handler passes the
text to `setIngredientCost`, which the store rejects, and throws. -/
theorem cost_with_symbol_not_rejected (dbQuery : DbQuery) :
    isCurrency "$0.00" = true ∧ stringToNumber "$0.00" = JSNum.nan ∧
    postIngredient dbQuery "u" sampleStore "1" "Salt" "$0.00" =
      (match PgPersistence.createIngredient dbQuery "u" (JSNum.fin 1 0) "Salt" JSNum.nan with
        | Except.error e => Except.error e
        | Except.ok false =>
          Except.ok (FormReply.rerender "new-ingredient"
            [("error", "The ingredient already exists.")])
        | Except.ok true =>
          Except.ok (FormReply.redirect "/meals/1"
            [("success", "The ingredient has been added.")])) ∧
    postEditCost "u" sampleStore "1" "1" "$0.00" =
      (Except.error "invalid input syntax for type numeric", sampleStore) := by
  refine ⟨by decide, by decide, rfl, by decide⟩

/-! ## Order of the meal list -/

/-- C10, on the failing input: of the two meals of `u`, `Apple pie` costs 5.00
and `Banana bread` costs 1.00; `sortedMealLists` returns `Banana bread` first,
which is not ascending by name. -/
theorem sortedMealLists_not_by_name :
    PgPersistence.sortedMealLists "u" sampleStore (JSNum.ofInt 0) (JSNum.ofInt 5) =
      Except.ok [
        { id := 2, name := "Banana bread", username := "u", totalCost := 100 },
        { id := 1, name := "Apple pie", username := "u", totalCost := 500 }] ∧
    textLe "Banana bread" "Apple pie" = false ∧
    (getMeals "u" sampleStore JSVal.undefined).map (fun page => page.meals.map (fun m => m.name)) =
      Except.ok ["Banana bread", "Apple pie"] := by
  decide

/-! ## Adding an ingredient to a meal of another user -/

/-- C11, on the failing input: meal 3 belongs to `v` and there is no meal 99,
so `loadMeal` gives user `u` no meal for either; with a valid name and cost
the add-ingredient handler still calls `createIngredient`, and the `INSERT` it
sends carries `meal_id = 3` (or 99) with `username = u`. -/
theorem postIngredient_inserts_without_meal (dbQuery : DbQuery) :
    PgPersistence.loadMeal "u" sampleStore (stringToNumber "3") = Except.ok none ∧
    PgPersistence.loadMeal "v" sampleStore (stringToNumber "3") ≠ Except.ok none ∧
    PgPersistence.loadMeal "u" sampleStore (stringToNumber "99") = Except.ok none ∧
    postIngredient dbQuery "u" sampleStore "3" "Salt" "1.00" =
      (match PgPersistence.createIngredient dbQuery "u" (JSNum.fin 3 0) "Salt" (JSNum.fin 100 2) with
        | Except.error e => Except.error e
        | Except.ok false =>
          Except.ok (FormReply.rerender "new-ingredient"
            [("error", "The ingredient already exists.")])
        | Except.ok true =>
          Except.ok (FormReply.redirect "/meals/3"
            [("success", "The ingredient has been added.")])) ∧
    postIngredient
        (insertOnly [JSVal.str "Salt", JSVal.num (JSNum.fin 100 2), JSVal.num (JSNum.fin 3 0),
          JSVal.str "u"])
        "u" sampleStore "3" "Salt" "1.00" =
      Except.ok (FormReply.redirect "/meals/3" [("success", "The ingredient has been added.")]) ∧
    postIngredient
        (insertOnly [JSVal.str "Salt", JSVal.num (JSNum.fin 100 2), JSVal.num (JSNum.fin 99 0),
          JSVal.str "u"])
        "u" sampleStore "99" "Salt" "1.00" =
      Except.ok (FormReply.redirect "/meals/99" [("success", "The ingredient has been added.")]) := by
  refine ⟨by decide, by decide, by decide, rfl, by decide, by decide⟩

/-! ## The pages of the meal list -/

theorem flatMap_windows {α : Type} (l : List α) (k m : Nat) :
    (List.range m).flatMap (fun i => (l.drop (i * k)).take k) = l.take (m * k) := by
  induction m with
  | zero => simp
  | succ m ih =>
    rw [List.range_succ, List.flatMap_append, ih, Nat.succ_mul, List.take_add]
    simp

theorem mealWindow_eq_slice (username : String) (store : Store) (startIndex endIndex : JSNum) :
    mealWindow username store startIndex endIndex =
      jsSlice (sortedMeals username store) startIndex endIndex := rfl

theorem length_sortedMeals (username : String) (store : Store) :
    (sortedMeals username store).length = mealCount username store := by
  simp [sortedMeals, sortedRows, jsSort, PgPersistence.ALL_MEALS, mealCount,
    List.length_insertionSort]

theorem toDouble_int (m : Int) (h : m.natAbs ≤ 2 ^ 53) :
    JSNum.toDouble m 0 = JSNum.fin m 0 := by
  unfold JSNum.toDouble
  rw [if_pos ⟨rfl, h⟩]

theorem startIndex_ofNat (p : Nat) (hp : 1 ≤ p) (hsafe : p * 5 ≤ 2 ^ 53) :
    JSNum.mul (JSNum.sub (JSNum.ofInt p) (JSNum.ofInt 1)) (JSNum.ofInt LIMIT) =
      JSNum.ofInt (((p - 1) * 5 : Nat) : Int) := by
  have e1 : (p : Int) * ((10 ^ 0 : Nat) : Int) + -1 * ((10 ^ 0 : Nat) : Int) =
      ((p - 1 : Nat) : Int) := by
    push_cast [Nat.cast_sub hp]
    ring
  have h1 : JSNum.sub (JSNum.ofInt p) (JSNum.ofInt 1) = JSNum.fin ((p - 1 : Nat) : Int) 0 := by
    show JSNum.toDouble ((p : Int) * ((10 ^ 0 : Nat) : Int) + -1 * ((10 ^ 0 : Nat) : Int)) 0 = _
    rw [e1]
    exact toDouble_int _ (by rw [Int.natAbs_ofNat]; omega)
  have e2 : ((p - 1 : Nat) : Int) * ((5 : Nat) : Int) = (((p - 1) * 5 : Nat) : Int) := by
    push_cast
    ring
  rw [h1]
  show JSNum.toDouble (((p - 1 : Nat) : Int) * ((5 : Nat) : Int)) 0 = _
  rw [e2]
  exact toDouble_int _ (by rw [Int.natAbs_ofNat]; omega)

theorem endIndex_ofNat (p : Nat) (hsafe : p * 5 ≤ 2 ^ 53) :
    JSNum.mul (JSNum.ofInt p) (JSNum.ofInt LIMIT) = JSNum.ofInt ((p * 5 : Nat) : Int) := by
  have e2 : (p : Int) * ((5 : Nat) : Int) = ((p * 5 : Nat) : Int) := by
    push_cast
    ring
  show JSNum.toDouble ((p : Int) * ((5 : Nat) : Int)) 0 = _
  rw [e2]
  exact toDouble_int _ (by rw [Int.natAbs_ofNat]; omega)

/-- The indices the handler computes for the integer page `p` are those of
`pageWindow`, as long as `p * 5` is at most `2 ^ 53`. -/
theorem requested_window_eq_pageWindow (username : String) (store : Store) (p : Nat)
    (hp : 1 ≤ p) (hsafe : p * 5 ≤ 2 ^ 53) :
    mealWindow username store
        (JSNum.mul (JSNum.sub (JSNum.ofInt p) (JSNum.ofInt 1)) (JSNum.ofInt 5))
        (JSNum.mul (JSNum.ofInt p) (JSNum.ofInt 5)) =
      pageWindow username store p := by
  have h1 := startIndex_ofNat p hp hsafe
  have h2 := endIndex_ofNat p hsafe
  simp only [LIMIT, Nat.cast_ofNat] at h1 h2
  rw [h1, h2]
  rfl

/-- For a page parameter that reads as the integer `p` between 1 and the
number of pages, `GET /meals` renders `pageWindow p` without a flash error. -/
theorem getMeals_renders_pageWindow (username : String) (store : Store) (queryPage : JSVal)
    (p : Nat) (hq : requestedPage queryPage = JSNum.ofInt p) (hp1 : 1 ≤ p)
    (hp2 : p ≤ ⌈(mealCount username store : ℚ) / 5⌉₊) (hsafe : p * 5 ≤ 2 ^ 53) :
    getMeals username store queryPage =
      Except.ok
        { flash := [],
          meals := pageWindow username store p,
          totalPage := ceilOfQuotient (mealCount username store) LIMIT,
          page := 1 } := by
  have hnot : ¬ PageNotFound (mealCount username store) (requestedPage queryPage) := by
    rw [hq]
    have hval : JSNum.value (p : Int) 0 = (p : ℚ) := by simp [JSNum.value]
    unfold PageNotFound
    simp only [JSNum.ofInt, JSNum.IsPositive, JSNum.Exceeds, hval]
    rintro (h | ⟨_, h⟩ | ⟨h0, _⟩)
    · exact h (by exact_mod_cast hp1)
    · have : (p : ℚ) ≤ (⌈(mealCount username store : ℚ) / 5⌉₊ : ℚ) := by exact_mod_cast hp2
      exact absurd h (not_lt.mpr this)
    · rw [h0] at hp2
      simp at hp2
      omega
  rw [getMeals_of_not_pageNotFound username store queryPage hnot, hq,
    requested_window_eq_pageWindow username store p hp1 hsafe]

theorem pageWindow_eq (username : String) (store : Store) (p : Nat) (hp : 1 ≤ p) :
    pageWindow username store p = ((sortedMeals username store).drop ((p - 1) * 5)).take 5 := by
  unfold pageWindow
  have h := jsSlice_ofNat (sortedMeals username store) ((p - 1) * 5) (p * 5) (by omega)
  have h5 : p * 5 - (p - 1) * 5 = 5 := by omega
  rw [h5] at h
  exact h

/-- C12: for a user with `n ≥ 1` meals and `totalPages = ceil(n / 5)`, the
windows `GET /meals` requests for the pages `1 .. totalPages` are each
non-empty, hold at most 5 meals, and concatenated in page order they are the
whole cost-sorted list (there is at least one page). -/
theorem meal_pages_partition (username : String) (store : Store)
    (hn : 1 ≤ mealCount username store) :
    1 ≤ ⌈(mealCount username store : ℚ) / 5⌉₊ ∧
    (∀ p, 1 ≤ p → p ≤ ⌈(mealCount username store : ℚ) / 5⌉₊ →
      pageWindow username store p ≠ [] ∧ (pageWindow username store p).length ≤ 5) ∧
    (List.range ⌈(mealCount username store : ℚ) / 5⌉₊).flatMap
        (fun i => pageWindow username store (i + 1)) =
      sortedMeals username store := by
  rw [← ceilOfQuotient_eq_ceil]
  have htp : ceilOfQuotient (mealCount username store) LIMIT =
      (mealCount username store + 4) / 5 := rfl
  have hlen := length_sortedMeals username store
  refine ⟨by omega, ?_, ?_⟩
  · intro p hp1 hp2
    rw [pageWindow_eq username store p hp1]
    constructor
    · intro hnil
      have h0 := congrArg List.length hnil
      simp only [List.length_take, List.length_drop, List.length_nil, hlen] at h0
      omega
    · exact List.length_take_le _ _
  · have hfun : (fun i => pageWindow username store (i + 1)) =
        (fun i => ((sortedMeals username store).drop (i * 5)).take 5) := by
      funext i
      rw [pageWindow_eq username store (i + 1) (by omega)]
      simp
    rw [hfun, flatMap_windows]
    apply List.take_of_length_le
    omega

/-- C12 for user `u` of the sample store, who has two meals. -/
theorem meal_pages_partition_witness :
    1 ≤ ⌈(mealCount "u" sampleStore : ℚ) / 5⌉₊ ∧
    (∀ p, 1 ≤ p → p ≤ ⌈(mealCount "u" sampleStore : ℚ) / 5⌉₊ →
      pageWindow "u" sampleStore p ≠ [] ∧ (pageWindow "u" sampleStore p).length ≤ 5) ∧
    (List.range ⌈(mealCount "u" sampleStore : ℚ) / 5⌉₊).flatMap
        (fun i => pageWindow "u" sampleStore (i + 1)) =
      sortedMeals "u" sampleStore :=
  meal_pages_partition "u" sampleStore (by decide)

/-! ## Stability of the sort by cost -/

theorem charsLe_total (a b : List Char) : charsLe a b = true ∨ charsLe b a = true := by
  induction a generalizing b with
  | nil => left; simp [charsLe]
  | cons x xs ih =>
    cases b with
    | nil => right; simp [charsLe]
    | cons y ys =>
      simp only [charsLe, Bool.or_eq_true, Bool.and_eq_true, decide_eq_true_eq]
      rcases Nat.lt_trichotomy x.toNat y.toNat with h | h | h
      · exact Or.inl (Or.inl h)
      · rcases ih ys with h2 | h2
        · exact Or.inl (Or.inr ⟨h, h2⟩)
        · exact Or.inr (Or.inr ⟨h.symm, h2⟩)
      · exact Or.inr (Or.inl h)

theorem charsLe_trans (a b c : List Char) (hab : charsLe a b = true) (hbc : charsLe b c = true) :
    charsLe a c = true := by
  induction a generalizing b c with
  | nil => simp [charsLe]
  | cons x xs ih =>
    cases b with
    | nil => simp [charsLe] at hab
    | cons y ys =>
      cases c with
      | nil => simp [charsLe] at hbc
      | cons z zs =>
        simp only [charsLe, Bool.or_eq_true, Bool.and_eq_true, decide_eq_true_eq] at hab hbc ⊢
        rcases hab with h1 | ⟨h1, h1r⟩
        · rcases hbc with h2 | ⟨h2, _⟩
          · exact Or.inl (by omega)
          · exact Or.inl (by omega)
        · rcases hbc with h2 | ⟨h2, h2r⟩
          · exact Or.inl (by omega)
          · exact Or.inr ⟨by omega, ih ys zs h1r h2r⟩

theorem ALL_MEALS_sorted (username : String) (store : Store) :
    (PgPersistence.ALL_MEALS username store).Sorted (fun a b => textLe a.name b.name = true) := by
  have total : IsTotal MealRow (fun a b => textLe a.name b.name = true) :=
    ⟨fun a b => charsLe_total a.name.toList b.name.toList⟩
  have trans : IsTrans MealRow (fun a b => textLe a.name b.name = true) :=
    ⟨fun a b c hab hbc => charsLe_trans a.name.toList b.name.toList c.name.toList hab hbc⟩
  exact List.sorted_insertionSort _ _

theorem sortedRows_filter_cost (allMeals : List MealRow) (allCost : List CostRow) (c : Int) :
    (sortedRows allMeals allCost).filter (fun m => decide (m.totalCost = c)) =
      (allMeals.map (PgPersistence.attachTotalCost allCost)).filter
        (fun m => decide (m.totalCost = c)) := by
  have hpw : ((allMeals.map (PgPersistence.attachTotalCost allCost)).filter
      (fun m => decide (m.totalCost = c))).Pairwise
        (fun a b => a.totalCost - b.totalCost ≤ 0) := by
    rw [List.pairwise_iff_forall_sublist]
    intro a b hab
    have ha : a ∈ (allMeals.map (PgPersistence.attachTotalCost allCost)).filter
        (fun m => decide (m.totalCost = c)) := hab.subset (by simp)
    have hb : b ∈ (allMeals.map (PgPersistence.attachTotalCost allCost)).filter
        (fun m => decide (m.totalCost = c)) := hab.subset (by simp)
    have ha2 : a.totalCost = c := by simpa using (List.mem_filter.mp ha).2
    have hb2 : b.totalCost = c := by simpa using (List.mem_filter.mp hb).2
    omega
  have hsub : ((allMeals.map (PgPersistence.attachTotalCost allCost)).filter
      (fun m => decide (m.totalCost = c))).Sublist (sortedRows allMeals allCost) :=
    List.sublist_insertionSort hpw (List.filter_sublist _)
  have hsub2 := hsub.filter (fun m => decide (m.totalCost = c))
  rw [List.filter_filter] at hsub2
  simp only [Bool.and_self] at hsub2
  have hperm : ((sortedRows allMeals allCost).filter (fun m => decide (m.totalCost = c))).Perm
      ((allMeals.map (PgPersistence.attachTotalCost allCost)).filter
        (fun m => decide (m.totalCost = c))) :=
    (jsSort_perm _ _).filter _
  exact (hsub2.eq_of_length hperm.length_eq.symm).symm

theorem annotatedMeals_sorted (username : String) (store : Store) :
    (annotatedMeals username store).Pairwise (fun a b => textLe a.name b.name = true) := by
  unfold annotatedMeals
  rw [List.pairwise_map]
  exact ALL_MEALS_sorted username store

/-- C13: the sort by total cost in `sortedMealLists` is stable with respect to
the rows of the `ORDER BY name ASC` query: two meals with equal `totalCost`
keep, in the unsliced result, the relative order they have in the query rows;
for every cost (0 included, the cost of the meals without ingredients) the
meals of that cost are in the result exactly as in the query rows, hence
ordered by name. -/
theorem sort_by_cost_is_stable (username : String) (store : Store) :
    (∀ a b : Meal, a.totalCost = b.totalCost →
      List.Sublist [a, b] (annotatedMeals username store) →
      List.Sublist [a, b] (sortedMeals username store)) ∧
    (∀ c : Int, (sortedMeals username store).filter (fun m => decide (m.totalCost = c)) =
      (annotatedMeals username store).filter (fun m => decide (m.totalCost = c))) ∧
    (∀ c : Int, ((sortedMeals username store).filter (fun m => decide (m.totalCost = c))).Sorted
      (fun a b => textLe a.name b.name = true)) := by
  refine ⟨?_, ?_, ?_⟩
  · intro a b hcost hsub
    have hab : (fun (x y : Meal) => x.totalCost - y.totalCost ≤ 0) a b := by
      show a.totalCost - b.totalCost ≤ 0
      omega
    exact List.pair_sublist_insertionSort hab hsub
  · intro c
    exact sortedRows_filter_cost _ _ c
  · intro c
    have h : (sortedMeals username store).filter (fun m => decide (m.totalCost = c)) =
        (annotatedMeals username store).filter (fun m => decide (m.totalCost = c)) :=
      sortedRows_filter_cost _ _ c
    rw [h]
    exact (annotatedMeals_sorted username store).sublist (List.filter_sublist _)

/-- C13 for the first two of six meals without ingredients: they stay in the
order of their names. -/
theorem sort_by_cost_is_stable_witness :
    List.Sublist
      [({ id := 1, name := "a", username := "u", totalCost := 0 } : Meal),
        { id := 2, name := "b", username := "u", totalCost := 0 }]
      (sortedMeals "u" sixMeals) :=
  (sort_by_cost_is_stable "u" sixMeals).1
    { id := 1, name := "a", username := "u", totalCost := 0 }
    { id := 2, name := "b", username := "u", totalCost := 0 } rfl (by decide)

end MealCost
